import Mathlib

/-!
# UniBone MSCP server: a shallow embedding of `mscp_server.cpp`

The command handlers of `10.02_devices/2_src/mscp_server.cpp` and the per-message body of
`mscp_server::Poll` are translated to pure state-passing functions.

* Machine integers are natural numbers; every place where the C++ computes in `uint32_t`
  carries an explicit `% 2 ^ 32`.
* Memory regions (the parameter area of a message, the in-memory disk image) are maps from a
  byte offset to a byte; packed structures are read and written little-endian at the byte
  offsets given by their `#pragma pack(push,1)` declarations.
* The port (`uda_c`) is the environment: what it returns is an oracle, what it is asked to do
  is recorded in a log.
-/

namespace UniBone

set_option linter.unusedVariables false
set_option linter.dupNamespace false

/-! ## Byte regions -/

/-- A region of bytes, addressed by the offset from its base pointer. -/
abbrev Bytes := Nat → Nat

/-- Little-endian load of a `w`-byte unsigned field at offset `off`. -/
def loadLE (p : Bytes) (off : Nat) : Nat → Nat
  | 0 => 0
  | w + 1 => p off % 256 + 256 * loadLE p (off + 1) w

/-- Little-endian store of the low `width` bytes of `v` at offset `off`. -/
def storeLE (p : Bytes) (off width v : Nat) : Bytes :=
  fun i => if off ≤ i ∧ i < off + width then v / 256 ^ (i - off) % 256 else p i

/-- The `n` bytes found at a pointer, as a list. -/
def bytesAt (p : Bytes) (n : Nat) : List Nat :=
  (List.range n).map p

/-- Pointer arithmetic `p + off` on a byte region. -/
def offsetPtr (p : Bytes) (off : Nat) : Bytes :=
  fun i => p (off + i)

/-- The C library call `memcpy(dst + off, src, n)`. -/
def memcpy (dst : Bytes) (off : Nat) (src : List Nat) (n : Nat) : Bytes :=
  fun i => if off ≤ i ∧ i < off + n then src.getD (i - off) 0 else dst i

/-! ## Declarations of the absent header `mscp_server.hpp` -/

/-- Modelled from the spec: the header `mscp_server.hpp` is not among the sources. It declares
the constants and enumerators used by `mscp_server.cpp`; neither the spec nor the sources give
their values, so they are parameters of the model. -/
structure mscp_server_hpp where
  INIT_CREDITS : Nat
  MAX_CREDITS : Nat
  HEADER_SIZE : Nat
  UNIT_ID : Nat
  MEDIA_ID_RA80 : Nat
  /-- The enumerator `Status::SUCCESS`. -/
  SUCCESS : Nat
  /-- The enumerator `Status::INVALID_COMMAND`. -/
  INVALID_COMMAND : Nat
  /-- The enumerator `Status::UNIT_OFFLINE`. -/
  UNIT_OFFLINE : Nat
  /-- The enumerator `Status::UNIT_AVAILABLE`. -/
  UNIT_AVAILABLE : Nat
  /-- The enumerator `Opcodes::GET_UNIT_STATUS`. -/
  GET_UNIT_STATUS : Nat
  /-- The enumerator `Opcodes::ONLINE`. -/
  ONLINE : Nat
  /-- The enumerator `Opcodes::SET_CONTROLLER_CHARACTERISTICS`. -/
  SET_CONTROLLER_CHARACTERISTICS : Nat
  /-- The enumerator `Opcodes::SET_UNIT_CHARACTERISTICS`. -/
  SET_UNIT_CHARACTERISTICS : Nat
  /-- The enumerator `Opcodes::READ`. -/
  READ : Nat
  /-- The enumerator `Opcodes::WRITE`. -/
  WRITE : Nat
  /-- The enumerator `Endcodes::END`. -/
  END : Nat
  /-- The enumerator `MessageTypes::Sequential`. -/
  Sequential : Nat

/-- Modelled from the spec: `_diskBufferSize` is declared in the absent header. The spec's
backing image is 16 MiB, and the constructor's comment on the allocation says the same
("16mb in-memory disk data + 1 block for write protect flag"). -/
def _diskBufferSize : Nat := 16 * 1024 * 1024

/-- Modelled from the spec: the macro `STATUS(status, flags)` is defined in the absent header.
The spec's status word has the primary status code in the low byte, the sub-code in the next
byte and the flags in the remaining bits of the 32-bit word. -/
def STATUS (status flags : Nat) : Nat :=
  (status % 65536 + 65536 * flags) % 2 ^ 32

/-- Modelled from the spec: the macro `GET_STATUS`, the status and sub-code bytes of a status
word. -/
def GET_STATUS (cmdStatus : Nat) : Nat :=
  cmdStatus % 65536

/-- Modelled from the spec: the macro `GET_FLAGS`, the bits of a status word above the status
and sub-code bytes. -/
def GET_FLAGS (cmdStatus : Nat) : Nat :=
  cmdStatus / 65536

/-- Modelled from the spec: the primary status code is the low byte of the status word. -/
def primaryCode (cmdStatus : Nat) : Nat :=
  cmdStatus % 256

/-- Modelled from the spec: the sub-code is the byte after the primary status code. -/
def subCode (cmdStatus : Nat) : Nat :=
  cmdStatus / 256 % 256

/-- Modelled from the spec: `ControlMessageHeader::Word3` is declared in the absent header. It
is a union of a `Command` view (`Opcode`, `Reserved`, `Modifiers`) and an `End` view
(`Endcode`, `Flags`, `Status`) of the same storage; `Poll` relies on `Endcode` lying over
`Opcode` ("the End code or'd with the opcode"). The three cells carry the names of the `End`
view. -/
structure Word3 where
  Endcode : Nat
  Flags : Nat
  Status : Nat

/-- The `Command` view of the first cell. -/
def Word3.Opcode (w : Word3) : Nat := w.Endcode

/-- The `Command` view of the second cell. -/
def Word3.Reserved (w : Word3) : Nat := w.Flags

/-- The `Command` view of the third cell. -/
def Word3.Modifiers (w : Word3) : Nat := w.Status

/-- Modelled from the spec: `ControlMessageHeader` is declared in the absent header; these are
the members `mscp_server.cpp` accesses. -/
structure ControlMessageHeader where
  UnitNumber : Nat
  Word3 : Word3
  Parameters : Bytes

/-- The `Message` of `uda.hpp`: length, the bit-fields of `Word1.Info`, and the payload bytes,
which the server only ever accesses through a `ControlMessageHeader*`. -/
structure Message where
  MessageLength : Nat
  Credits : Nat
  MessageType : Nat
  ConnectionID : Nat
  Message : ControlMessageHeader

/-- Modelled from the spec: the enumeration `PollingState` of the absent header, with the four
enumerators `mscp_server.cpp` names. -/
inductive PollingState
  | Wait
  | InitRun
  | Run
  | InitRestart
  deriving DecidableEq, Repr

/-! ## The port -/

/-- One DMA call made on the port. A write carries the bytes found at the source pointer. -/
inductive DMACall
  | write (address lengthInBytes : Nat) (buffer : List Nat)
  | read (address lengthInBytes : Nat)
  deriving DecidableEq, Repr

/-- Modelled from the spec: the port `uda_c`, whose member functions are not among the sources
(`uda.hpp` only declares them). What the port returns is given by the environment (`DMARead`,
`GetControllerIdentifier`, `PostResponse` by the number of the call); what the server asks of
it is logged (`dma`, `responses`). -/
structure uda_c where
  DMARead : Nat → Nat → List Nat
  GetControllerIdentifier : Nat
  PostResponse : Nat → Bool
  posts : Nat
  dma : List DMACall
  responses : List Message

/-- The call `_port->DMAWrite(address, lengthInBytes, buffer)`; its result is ignored by every
caller in `mscp_server.cpp`. -/
def uda_c.DMAWrite (port : uda_c) (address lengthInBytes : Nat) (buffer : Bytes) : uda_c :=
  { port with dma := port.dma ++ [DMACall.write address lengthInBytes (bytesAt buffer lengthInBytes)] }

/-- The call `_port->DMARead(address, lengthInBytes)`: the port afterwards, and the buffer. -/
def uda_c.doDMARead (port : uda_c) (address lengthInBytes : Nat) : uda_c × List Nat :=
  ({ port with dma := port.dma ++ [DMACall.read address lengthInBytes] },
    port.DMARead address lengthInBytes)

/-! ## The server -/

/-- The data members of `mscp_server` that the handlers and `Poll` use. -/
structure mscp_server where
  _hostTimeout : Nat
  _controllerFlags : Nat
  _abort_polling : Bool
  _pollState : PollingState
  _unitOnline : Bool
  _credits : Nat
  _diskBuffer : Bytes

/-- What a command handler leaves behind: its `uint32_t` result, the message it modified in
place, the server and the port. -/
structure Handled where
  status : Nat
  message : Message
  server : mscp_server
  port : uda_c

/-- The method `mscp_server::GetParameterPointer`. -/
def GetParameterPointer (message : Message) : Bytes :=
  message.Message.Parameters

/-- The message with its parameter region replaced: a write through the pointer returned by
`GetParameterPointer`. -/
def setParameters (message : Message) (params : Bytes) : Message :=
  { message with Message := { message.Message with Parameters := params } }

/-- The method `mscp_server::Read`. `ReadParameters` is packed: `ByteCount` at 0,
`BufferPhysicalAddress` at 4, `LBN` at 16, four bytes each. -/
def mscp_server.Read (k : mscp_server_hpp) (self : mscp_server) (port : uda_c)
    (message : Message) (unitNumber modifiers : Nat) : Handled :=
  let params := GetParameterPointer message
  let ByteCount := loadLE params 0 4
  let BufferPhysicalAddress := loadLE params 4 4
  let LBN := loadLE params 16 4
  if unitNumber ≠ 0 then
    ⟨STATUS k.UNIT_OFFLINE 0, message, self, port⟩
  else if LBN ≥ (_diskBufferSize + 512) / 512 then
    ⟨STATUS (k.INVALID_COMMAND + (0x1c <<< 8)) 0, message, self, port⟩
  else if ByteCount > (((_diskBufferSize + 512) / 512 + 2 ^ 32 - LBN) % 2 ^ 32 * 512) % 2 ^ 32 then
    ⟨STATUS (k.INVALID_COMMAND + (0xc <<< 8)) 0, message, self, port⟩
  else
    let port1 := port.DMAWrite (BufferPhysicalAddress &&& 0x00ffffff) ByteCount
      (offsetPtr self._diskBuffer (LBN * 512 % 2 ^ 32))
    ⟨STATUS k.SUCCESS 0, setParameters message (storeLE params 16 4 0), self, port1⟩

/-- The method `mscp_server::Write`. `WriteParameters` has the layout of `ReadParameters`. -/
def mscp_server.Write (k : mscp_server_hpp) (self : mscp_server) (port : uda_c)
    (message : Message) (unitNumber modifiers : Nat) : Handled :=
  let params := GetParameterPointer message
  let ByteCount := loadLE params 0 4
  let BufferPhysicalAddress := loadLE params 4 4
  let LBN := loadLE params 16 4
  if unitNumber ≠ 0 then
    ⟨STATUS k.UNIT_OFFLINE 0, message, self, port⟩
  else if LBN > (_diskBufferSize + 512) / 512 then
    ⟨STATUS (k.INVALID_COMMAND + (0x1c <<< 8)) 0, message, self, port⟩
  else if ByteCount > (((_diskBufferSize + 512) / 512 + 2 ^ 32 - LBN) % 2 ^ 32 * 512) % 2 ^ 32 then
    ⟨STATUS (k.INVALID_COMMAND + (0x0c <<< 8)) 0, message, self, port⟩
  else
    let r := port.doDMARead (BufferPhysicalAddress &&& 0x00ffffff) ByteCount
    let disk := memcpy self._diskBuffer (LBN * 512 % 2 ^ 32) r.2 ByteCount
    ⟨STATUS k.SUCCESS 0, setParameters message (storeLE params 16 4 0),
      { self with _diskBuffer := disk }, r.1⟩

/-- The method `mscp_server::GetUnitStatus`. `GetUnitStatusResponseParameters` is packed, 36
bytes: `UnitFlags` at 0, `MultiUnitCode` at 2, `UnitIdentifier` at 8, `MediaTypeIdentifier` at
16, `ShadowUnit` at 22, `GroupSize` at 24, `TrackSize` at 26, `CylinderSize` at 30, `RCTStuff`
at 32. -/
def mscp_server.GetUnitStatus (k : mscp_server_hpp) (self : mscp_server) (port : uda_c)
    (message : Message) (unitNumber modifiers : Nat) : Handled :=
  if unitNumber ≠ 0 then
    ⟨STATUS k.UNIT_OFFLINE 3, message, self, port⟩
  else
    let message1 := { message with MessageLength := (36 + k.HEADER_SIZE) % 2 ^ 16 }
    let p0 := GetParameterPointer message1
    let p1 := storeLE p0 0 2 0
    let p2 := storeLE p1 2 2 0
    let p3 := storeLE p2 8 8 k.UNIT_ID
    let p4 := storeLE p3 16 4 k.MEDIA_ID_RA80
    let p5 := storeLE p4 22 2 unitNumber
    let p6 := storeLE p5 26 2 1
    let p7 := storeLE p6 24 2 0
    let p8 := storeLE p7 30 2 0
    let p9 := storeLE p8 32 4 0x01000001
    let message2 := setParameters message1 p9
    if self._unitOnline then
      ⟨STATUS k.SUCCESS 0, message2, self, port⟩
    else
      ⟨STATUS k.UNIT_AVAILABLE 0, message2, self, port⟩

/-- The method `mscp_server::Online`. `OnlineResponseParameters` is packed, 32 bytes:
`UnitFlags` at 0, `MultiUnitCode` at 2, `UnitIdentifier` at 8, `MediaTypeIdentifier` at 16,
`UnitSize` at 24, `VolumeSerialNumber` at 28. -/
def mscp_server.Online (k : mscp_server_hpp) (self : mscp_server) (port : uda_c)
    (message : Message) (unitNumber modifiers : Nat) : Handled :=
  if unitNumber ≠ 0 then
    ⟨STATUS k.UNIT_OFFLINE 3, message, self, port⟩
  else
    let self1 := { self with _unitOnline := true }
    let message1 := { message with MessageLength := (32 + k.HEADER_SIZE) % 2 ^ 16 }
    let p0 := GetParameterPointer message1
    let p1 := storeLE p0 0 2 0
    let p2 := storeLE p1 2 2 0
    let p3 := storeLE p2 8 8 k.UNIT_ID
    let p4 := storeLE p3 16 4 k.MEDIA_ID_RA80
    let p5 := storeLE p4 24 4 (_diskBufferSize / 512)
    let p6 := storeLE p5 28 4 0
    ⟨STATUS k.SUCCESS 0, setParameters message1 p6, self1, port⟩

/-- The method `mscp_server::SetControllerCharacteristics`.
`SetControllerCharacteristicsParameters` is packed: `ControllerFlags` at 0, `MSCPVersion` at 2,
`HostTimeout` at 6, two bytes each, and `TimeAndDate` at 8, eight bytes. -/
def mscp_server.SetControllerCharacteristics (k : mscp_server_hpp) (self : mscp_server)
    (port : uda_c) (message : Message) : Handled :=
  let params := GetParameterPointer message
  if loadLE params 2 2 ≠ 0 then
    ⟨STATUS k.INVALID_COMMAND 0, message, self, port⟩
  else
    let self1 := { self with _hostTimeout := loadLE params 6 2 }
    let self2 := { self1 with _controllerFlags := loadLE params 0 2 }
    let p1 := storeLE params 0 2 (self2._controllerFlags &&& 0xfe)
    let p2 := storeLE p1 6 2 0xff
    let p3 := storeLE p2 8 8 port.GetControllerIdentifier
    ⟨STATUS k.SUCCESS 0, setParameters message p3, self2, port⟩

/-- The method `mscp_server::SetUnitCharacteristics`.
`SetUnitCharacteristicsResponseParameters` is packed, 34 bytes: `UnitFlags` at 0,
`MultiUnitCode` at 2, `UnitIdentifier` at 8, `MediaTypeIdentifier` at 16, `ShadowUnit` at 24,
`UnitSize` at 26, `VolumeSerialNumber` at 30. -/
def mscp_server.SetUnitCharacteristics (k : mscp_server_hpp) (self : mscp_server)
    (port : uda_c) (message : Message) (unitNumber modifiers : Nat) : Handled :=
  if unitNumber ≠ 0 then
    ⟨STATUS k.UNIT_OFFLINE 0, message, self, port⟩
  else
    let message1 := { message with MessageLength := (34 + k.HEADER_SIZE) % 2 ^ 16 }
    let p0 := GetParameterPointer message1
    let p1 := storeLE p0 0 2 0
    let p2 := storeLE p1 2 2 0
    let p3 := storeLE p2 8 8 k.UNIT_ID
    let p4 := storeLE p3 16 4 k.MEDIA_ID_RA80
    let p5 := storeLE p4 26 4 (_diskBufferSize / 512)
    let p6 := storeLE p5 30 4 0
    ⟨STATUS k.SUCCESS 0, setParameters message1 p6, self, port⟩

/-! ## The body of `Poll` for one message -/

/-- The constructor `mscp_server::mscp_server`: the member initialisers, the zeroed disk
buffer, and the two assignments of `StartPollingThread`. -/
def mscp_server.ctor (k : mscp_server_hpp) : mscp_server :=
  { _hostTimeout := 0
    _controllerFlags := 0
    _abort_polling := false
    _pollState := PollingState.Wait
    _unitOnline := false
    _credits := k.INIT_CREDITS % 2 ^ 32
    _diskBuffer := fun _ => 0 }

/-- Modelled from the spec: the macro `FATAL` is defined in `logger.hpp`, which is not among the
sources. The spec classes an unrecognized opcode as a fatal, non-recoverable condition under
which the process terminates: the statement has no result. -/
abbrev FATAL {α : Type} : Option α := none

/-- The `switch` on the opcode in `Poll`. The `default` case is `FATAL`. -/
def dispatch (k : mscp_server_hpp) (self : mscp_server) (port : uda_c) (message : Message) :
    Option Handled :=
  let header := message.Message
  let opcode := header.Word3.Opcode
  if opcode = k.GET_UNIT_STATUS then
    some (self.GetUnitStatus k port message header.UnitNumber header.Word3.Modifiers)
  else if opcode = k.ONLINE then
    some (self.Online k port message header.UnitNumber header.Word3.Modifiers)
  else if opcode = k.SET_CONTROLLER_CHARACTERISTICS then
    some (self.SetControllerCharacteristics k port message)
  else if opcode = k.SET_UNIT_CHARACTERISTICS then
    some (self.SetUnitCharacteristics k port message header.UnitNumber header.Word3.Modifiers)
  else if opcode = k.READ then
    some (self.Read k port message header.UnitNumber header.Word3.Modifiers)
  else if opcode = k.WRITE then
    some (self.Write k port message header.UnitNumber header.Word3.Modifiers)
  else
    FATAL

/-- The statements of `Poll` that set the status, the flags and the end code of the response
from the handler's result. -/
def setEndcode (k : mscp_server_hpp) (message : Message) (cmdStatus : Nat) : Message :=
  let w0 := message.Message.Word3
  let w1 := { w0 with Status := GET_STATUS cmdStatus }
  let w2 := { w1 with Flags := GET_FLAGS cmdStatus }
  let w3 :=
    if GET_STATUS cmdStatus &&& 0x1f = k.INVALID_COMMAND then
      { w2 with Endcode := k.END }
    else
      { w2 with Endcode := w2.Endcode ||| k.END }
  { message with Message := { message.Message with Word3 := w3 } }

/-- What the credit block of `Poll` leaves behind; `grantedCredits` is its local variable, 0
when the block is skipped. -/
structure Granted where
  server : mscp_server
  message : Message
  grantedCredits : Nat

/-- The credit block of `Poll`: for a sequential message carrying an end code the host is
granted `min(_credits, MAX_CREDITS)` credits, computed in `uint32_t`; `Credits` is a four-bit
field. -/
def grantCredits (k : mscp_server_hpp) (self : mscp_server) (message : Message) : Granted :=
  if message.MessageType = k.Sequential ∧ message.Message.Word3.Endcode &&& k.END ≠ 0 then
    let grantedCredits := min self._credits (k.MAX_CREDITS % 2 ^ 32)
    { server := { self with _credits := (self._credits + 2 ^ 32 - grantedCredits) % 2 ^ 32 }
      message := { message with Credits := (grantedCredits + 1) % 16 }
      grantedCredits := grantedCredits }
  else
    { server := self, message := message, grantedCredits := 0 }

/-- The retry loop around `_port->PostResponse(message)`, with `retries` attempts left. -/
def postResponseLoop (port : uda_c) (message : Message) : Nat → uda_c
  | 0 => port
  | retries + 1 =>
    if port.PostResponse port.posts then
      { port with posts := port.posts + 1, responses := port.responses ++ [message] }
    else
      postResponseLoop { port with posts := port.posts + 1 } message retries

/-- What one iteration of the inner loop of `Poll` leaves behind. -/
structure Polled where
  server : mscp_server
  port : uda_c
  message : Message
  grantedCredits : Nat

/-- One iteration of the inner loop of `Poll`, for the message that `GetNextCommand` returned:
dispatch, end code, credits, and at most ten attempts to post the response. The result is
`none` when the opcode is not implemented (`FATAL`). -/
def pollMessage (k : mscp_server_hpp) (self : mscp_server) (port : uda_c) (message : Message) :
    Option Polled :=
  match dispatch k self port message with
  | none => none
  | some h =>
    let message1 := setEndcode k h.message h.status
    let g := grantCredits k h.server message1
    some
      { server := g.server
        port := postResponseLoop h.port g.message 10
        message := g.message
        grantedCredits := g.grantedCredits }

/-- The wait loop of `Reset`, `while (_pollState != Wait) pthread_cond_wait(...)`, entered with
`_pollState` equal to `st`. Each return of `pthread_cond_wait` finds the polling state the
other threads left, the next entry of `wake`. The result is `false` when the caller is never
woken with the state `Wait`. -/
def resetWaitLoop : PollingState → List PollingState → Bool
  | PollingState.Wait, _ => true
  | _, [] => false
  | _, st :: wake => resetWaitLoop st wake

/-- The method `mscp_server::Reset`, as seen by its caller: `none` when the caller stays
blocked in the wait loop, otherwise the server when `Reset` returns. -/
def mscp_server.Reset (k : mscp_server_hpp) (self : mscp_server) (wake : List PollingState) :
    Option mscp_server :=
  if self._pollState ≠ PollingState.Wait then
    if resetWaitLoop PollingState.InitRestart wake then
      some { self with _pollState := PollingState.Wait, _credits := k.INIT_CREDITS % 2 ^ 32 }
    else
      none
  else
    some { self with _credits := k.INIT_CREDITS % 2 ^ 32 }

/-- What happens to the credit balance after construction: the polling thread handles a
message, or a caller runs `Reset`. -/
inductive Event
  | command (message : Message)
  | reset (wake : List PollingState)

/-- The server and port, with the sum of the credits granted since construction or the last
return of `Reset`. -/
structure Ledger where
  server : mscp_server
  port : uda_c
  granted : Nat

/-- The ledger after one event. A `FATAL` opcode and a `Reset` that stays blocked leave no
completion behind. -/
def Ledger.step (k : mscp_server_hpp) (l : Ledger) : Event → Ledger
  | Event.command message =>
    match pollMessage k l.server l.port message with
    | none => l
    | some r => { server := r.server, port := r.port, granted := l.granted + r.grantedCredits }
  | Event.reset wake =>
    match l.server.Reset k wake with
    | none => l
    | some s => { server := s, port := l.port, granted := 0 }

/-- The ledger after a sequence of events. -/
def Ledger.run (k : mscp_server_hpp) (l : Ledger) (events : List Event) : Ledger :=
  events.foldl (Ledger.step k) l

/-- The ledger of a freshly constructed server attached to `port`. -/
def Ledger.init (k : mscp_server_hpp) (port : uda_c) : Ledger :=
  { server := mscp_server.ctor k, port := port, granted := 0 }

/-! ## The handlers by name, and the calls of `pthread_cond_wait` in `Reset` -/

/-- The six handlers that the `switch` of `Poll` can invoke. -/
inductive Handler
  | GetUnitStatus
  | Online
  | SetControllerCharacteristics
  | SetUnitCharacteristics
  | Read
  | Write
  deriving DecidableEq, Repr

/-- The `case` label in front of the call of each handler. -/
def Handler.opcode (k : mscp_server_hpp) : Handler → Nat
  | Handler.GetUnitStatus => k.GET_UNIT_STATUS
  | Handler.Online => k.ONLINE
  | Handler.SetControllerCharacteristics => k.SET_CONTROLLER_CHARACTERISTICS
  | Handler.SetUnitCharacteristics => k.SET_UNIT_CHARACTERISTICS
  | Handler.Read => k.READ
  | Handler.Write => k.WRITE

/-- The call of a handler as `Poll` writes it, with the unit number and the modifiers of the
message header. -/
def Handler.call (k : mscp_server_hpp) (self : mscp_server) (port : uda_c) (message : Message) :
    Handler → Handled
  | Handler.GetUnitStatus =>
    self.GetUnitStatus k port message message.Message.UnitNumber message.Message.Word3.Modifiers
  | Handler.Online =>
    self.Online k port message message.Message.UnitNumber message.Message.Word3.Modifiers
  | Handler.SetControllerCharacteristics =>
    self.SetControllerCharacteristics k port message
  | Handler.SetUnitCharacteristics =>
    self.SetUnitCharacteristics k port message message.Message.UnitNumber
      message.Message.Word3.Modifiers
  | Handler.Read =>
    self.Read k port message message.Message.UnitNumber message.Message.Word3.Modifiers
  | Handler.Write =>
    self.Write k port message message.Message.UnitNumber message.Message.Word3.Modifiers

/-- The number of calls of `pthread_cond_wait` made by the wait loop of `Reset` entered with
`_pollState` equal to `st`; the last call counted does not return when `wake` runs out. -/
def resetWaitCalls : PollingState → List PollingState → Nat
  | PollingState.Wait, _ => 0
  | _, [] => 1
  | _, st :: wake => resetWaitCalls st wake + 1

/-- The number of calls of `pthread_cond_wait` made by `mscp_server::Reset`. -/
def mscp_server.ResetWaitCalls (self : mscp_server) (wake : List PollingState) : Nat :=
  if self._pollState ≠ PollingState.Wait then
    resetWaitCalls PollingState.InitRestart wake
  else
    0

/-! ## Priority requests (`priorityrequest.cpp`) -/

/-- How a function containing `assert` ends: it returns, or an assertion fails and the process
is aborted, with the object as it is at that moment. -/
inductive Asserted (α : Type)
  | returned (value : α)
  | failed (value : α)

/-- Modelled from the spec: the class `priority_request_c` is declared in `priorityrequest.hpp`,
which is not among the sources; these are the data members its constructor assigns. The owning
device is identified by a number, `none` is the null pointer. -/
structure priority_request_c where
  device : Option Nat
  complete : Bool
  executing_on_PRU : Bool
  slot : Nat

/-- The constructor `priority_request_c::priority_request_c`. -/
def priority_request_c.ctor (device : Option Nat) : priority_request_c :=
  { device := device, complete := false, executing_on_PRU := false, slot := 0xff }

/-- What `set_priority_slot` leaves behind when it returns: the request, and whether the
`WARNING` was logged. -/
structure SlotAssigned where
  request : priority_request_c
  warned : Bool

/-- The method `priority_request_c::set_priority_slot`. `PRIORITY_SLOT_COUNT` is a constant of
the absent header; `find_by_request_slot` is a static member of `unibusdevice_c`, not among the
sources: the device it finds for a slot is given by the environment. -/
def priority_request_c.set_priority_slot (PRIORITY_SLOT_COUNT : Nat)
    (find_by_request_slot : Nat → Option Nat) (self : priority_request_c) (priority_slot : Nat) :
    Asserted SlotAssigned :=
  if ¬ (priority_slot > 0) then
    Asserted.failed ⟨self, false⟩
  else if ¬ (priority_slot < PRIORITY_SLOT_COUNT) then
    Asserted.failed ⟨self, false⟩
  else
    let ubdevice := find_by_request_slot priority_slot
    let warned := decide (ubdevice ≠ none ∧ ubdevice ≠ self.device)
    Asserted.returned ⟨{ self with slot := priority_slot }, warned⟩

/-- Modelled from the spec: the class `intr_request_c` is declared in the absent header; a
`priority_request_c` with the members its constructor assigns. -/
structure intr_request_c extends priority_request_c where
  level_index : Nat
  vector : Nat
  signal_level : Nat

/-- The constructor `intr_request_c::intr_request_c`, without the registration in the list of
the device. -/
def intr_request_c.ctor (device : Option Nat) : intr_request_c :=
  { priority_request_c.ctor device with level_index := 0xff, vector := 0xffff, signal_level := 0 }

/-- The method `intr_request_c::set_level`; `level` is a `uint8_t`. -/
def intr_request_c.set_level (self : intr_request_c) (level : Nat) : Asserted intr_request_c :=
  if ¬ (level ≥ 4 ∧ level ≤ 7) then
    Asserted.failed self
  else
    Asserted.returned { self with level_index := level - 4 }

/-- The method `intr_request_c::set_vector`; `vector` is a `uint16_t`. -/
def intr_request_c.set_vector (self : intr_request_c) (vector : Nat) : Asserted intr_request_c :=
  if ¬ (vector &&& 3 = 0) then
    Asserted.failed self
  else
    Asserted.returned { self with vector := vector }

/-! ## Requests and the request lists of their device -/

/-- Modelled from the spec: the class `unibusdevice_c` is declared in `unibusdevice.hpp`, which
is not among the sources; these are the two request collections that `priorityrequest.cpp`
uses. A request in a list is the address of the request object. -/
structure unibusdevice_c where
  dma_requests : List Nat
  intr_requests : List Nat

/-- The devices in memory, by address. -/
abbrev Devices := Nat → unibusdevice_c

/-- Modelled from the spec: the class `dma_request_c` is declared in the absent header; a
`priority_request_c` with the members its constructor assigns. -/
structure dma_request_c extends priority_request_c where
  level_index : Nat
  success : Bool

/-- The calls `std::find(v.begin(), v.end(), x)` and `v.erase(it)` of the destructors: the
first element equal to `x` is removed. When `x` is not in `v` the iterator is `v.end()`, for
which `erase` is undefined: there is no result. -/
def findErase (v : List Nat) (x : Nat) : Option (List Nat) :=
  if x ∈ v then some (v.erase x) else none

/-- The constructor `dma_request_c::dma_request_c`, for the request object at address `this`:
the request, and the devices afterwards. `PRIORITY_LEVEL_INDEX_NPR` is a constant of the absent
header. -/
def dma_request_c.construct (PRIORITY_LEVEL_INDEX_NPR : Nat) (this : Nat) (device : Option Nat)
    (devices : Devices) : dma_request_c × Devices :=
  let self : dma_request_c :=
    { priority_request_c.ctor device with
      level_index := PRIORITY_LEVEL_INDEX_NPR, success := false }
  match device with
  | none => (self, devices)
  | some d =>
    (self, Function.update devices d
      { devices d with dma_requests := (devices d).dma_requests ++ [this] })

/-- The destructor `dma_request_c::~dma_request_c`, for the request object at address `this`:
the devices afterwards. -/
def dma_request_c.destroy (self : dma_request_c) (this : Nat) (devices : Devices) :
    Option Devices :=
  match self.device with
  | none => some devices
  | some d =>
    match findErase (devices d).dma_requests this with
    | none => none
    | some v => some (Function.update devices d { devices d with dma_requests := v })

/-- The constructor `intr_request_c::intr_request_c`, for the request object at address
`this`: the request, and the devices afterwards. -/
def intr_request_c.construct (this : Nat) (device : Option Nat) (devices : Devices) :
    intr_request_c × Devices :=
  let self := intr_request_c.ctor device
  match device with
  | none => (self, devices)
  | some d =>
    (self, Function.update devices d
      { devices d with intr_requests := (devices d).intr_requests ++ [this] })

/-- The destructor `intr_request_c::~intr_request_c`, for the request object at address
`this`: the devices afterwards. -/
def intr_request_c.destroy (self : intr_request_c) (this : Nat) (devices : Devices) :
    Option Devices :=
  match self.device with
  | none => some devices
  | some d =>
    match findErase (devices d).intr_requests this with
    | none => none
    | some v => some (Function.update devices d { devices d with intr_requests := v })

/-! ## The worker thread of a device (`device.cpp`) -/

/-- The two flags of `device_c` that the worker thread and `worker_stop` exchange. -/
structure device_c where
  worker_terminate : Bool
  worker_terminated : Bool

/-- The function `device_worker_pthread_cleanup_handler`, which the worker thread runs when it
ends, on its own or by cancellation. -/
def device_worker_pthread_cleanup_handler (device : device_c) : device_c :=
  { device with worker_terminate := false, worker_terminated := true }

/-- A step of `worker_stop` that another thread can observe: the assignment
`worker_terminate = true`, or a call. -/
inductive WorkerStep
  | set_worker_terminate
  | wait_ms (ms : Nat)
  | pthread_cancel
  | pthread_join
  deriving DecidableEq, Repr

/-- What the worker thread and the thread library do while `worker_stop` runs. `worker` is
what the worker thread makes of the two flags during the wait, given the flags it finds: it
may end, running its cleanup handler, or leave them alone. `cancel_status` and `join_status`
are what `pthread_cancel` and `pthread_join` return. -/
structure WorkerEnvironment where
  worker : device_c → device_c
  cancel_status : Nat
  join_status : Nat

/-- What `worker_stop` leaves behind: the flags, the steps it made in order, and whether it
ended in `FATAL`. -/
structure Stopped where
  device : device_c
  steps : List WorkerStep
  fatal : Bool

/-- The method `device_c::worker_stop`. The worker thread runs during `timeout.wait_ms(100)`
and sees the flags as `worker_stop` has left them. A thread that has been joined has ended, so
its cleanup handler has run. -/
def device_c.worker_stop (self : device_c) (env : WorkerEnvironment) : Stopped :=
  if self.worker_terminated then
    ⟨self, [], false⟩
  else
    let d1 := { self with worker_terminate := true }
    let d2 := env.worker d1
    let steps1 := [WorkerStep.set_worker_terminate, WorkerStep.wait_ms 100]
    if ¬ d2.worker_terminated ∧ env.cancel_status ≠ 0 then
      ⟨d2, steps1 ++ [WorkerStep.pthread_cancel], true⟩
    else
      let steps2 :=
        if ¬ d2.worker_terminated then steps1 ++ [WorkerStep.pthread_cancel] else steps1
      if env.join_status ≠ 0 then
        ⟨d2, steps2 ++ [WorkerStep.pthread_join], true⟩
      else
        ⟨device_worker_pthread_cleanup_handler d2, steps2 ++ [WorkerStep.pthread_join], false⟩

/-! ## The polling state under the polling mutex -/

/-- What a critical section on `polling_mutex` leaves behind: the server, and whether it called
`pthread_cond_signal`. -/
structure Locked where
  server : mscp_server
  signalled : Bool

/-- The critical section of `mscp_server::InitPolling`; the condition of its `if` is `true`. -/
def mscp_server.InitPolling (self : mscp_server) : Locked :=
  ⟨{ self with _pollState := PollingState.InitRun }, true⟩

/-- The critical section of `mscp_server::Reset` up to its wait loop: the request. -/
def mscp_server.ResetRequest (self : mscp_server) : Locked :=
  if self._pollState ≠ PollingState.Wait then
    ⟨{ self with _pollState := PollingState.InitRestart }, false⟩
  else
    ⟨self, false⟩

/-- The critical section of `Poll` after its wait loop, which it leaves when `_pollState` is
not `Wait`. -/
def mscp_server.PollWake (self : mscp_server) : Locked :=
  if self._pollState = PollingState.InitRun then
    ⟨{ self with _pollState := PollingState.Run }, false⟩
  else
    ⟨self, false⟩

/-- The critical section of `Poll` after the inner loop: the acknowledgement of a reset, the
start of a requested run, or the return to `Wait`. -/
def mscp_server.PollSleep (self : mscp_server) : Locked :=
  if self._pollState = PollingState.InitRestart then
    ⟨{ self with _pollState := PollingState.Wait }, true⟩
  else if self._pollState = PollingState.InitRun then
    ⟨{ self with _pollState := PollingState.Run }, false⟩
  else
    ⟨{ self with _pollState := PollingState.Wait }, false⟩

/-- The operations on the polling state: each is one critical section on `polling_mutex`. -/
inductive PollingOp
  | InitPolling
  | ResetRequest
  | PollWake
  | PollSleep
  deriving DecidableEq, Repr

/-- One step of the polling state. -/
def PollingOp.apply : PollingOp → mscp_server → Locked
  | PollingOp.InitPolling, s => s.InitPolling
  | PollingOp.ResetRequest, s => s.ResetRequest
  | PollingOp.PollWake, s => s.PollWake
  | PollingOp.PollSleep, s => s.PollSleep

/-- The polling states passed through, and the signals given, by a sequence of steps. -/
def pollingTrace : mscp_server → List PollingOp → List (PollingState × Bool)
  | _, [] => []
  | s, op :: ops =>
    ((op.apply s).server._pollState, (op.apply s).signalled) :: pollingTrace (op.apply s).server ops

/-! ## Concrete inputs -/

/-- One assignment of the header's constants, for evaluating the model on concrete inputs: the
numbers the MSCP protocol gives to these status codes, opcodes and the end marker. -/
def mscpValues : mscp_server_hpp :=
  { INIT_CREDITS := 32
    MAX_CREDITS := 14
    HEADER_SIZE := 12
    UNIT_ID := 0x0205000000000000
    MEDIA_ID_RA80 := 0x25641050
    SUCCESS := 0
    INVALID_COMMAND := 1
    UNIT_OFFLINE := 3
    UNIT_AVAILABLE := 4
    GET_UNIT_STATUS := 3
    ONLINE := 9
    SET_CONTROLLER_CHARACTERISTICS := 4
    SET_UNIT_CHARACTERISTICS := 10
    READ := 33
    WRITE := 34
    END := 0x80
    Sequential := 0 }

/-- A port with an empty log, whose host memory holds the byte 0xa5 everywhere. -/
def idlePort : uda_c :=
  { DMARead := fun _ n => List.replicate n 0xa5
    GetControllerIdentifier := 0x0106000000000000
    PostResponse := fun _ => true
    posts := 0
    dma := []
    responses := [] }

/-- A sequential command message for unit `unit` with the given opcode and an all-zero
parameter region. -/
def blankCommand (unit opcode : Nat) : Message :=
  { MessageLength := 32
    Credits := 0
    MessageType := 0
    ConnectionID := 0
    Message := { UnitNumber := unit, Word3 := { Endcode := opcode, Flags := 0, Status := 0 },
                 Parameters := fun _ => 0 } }

/-- A transfer command (the parameter layout of Read and Write) for unit 0: `ByteCount` bytes
at block `LBN`, host buffer at address 0o4000. -/
def transferCommand (opcode LBN ByteCount : Nat) : Message :=
  setParameters (blankCommand 0 opcode)
    (storeLE (storeLE (storeLE (fun _ => 0) 0 4 ByteCount) 4 4 0o4000) 16 4 LBN)

/-- A SetControllerCharacteristics command with the given version, flags and host timeout. -/
def controllerCommand (MSCPVersion ControllerFlags HostTimeout : Nat) : Message :=
  setParameters (blankCommand 0 4)
    (storeLE (storeLE (storeLE (fun _ => 0) 0 2 ControllerFlags) 2 2 MSCPVersion) 6 2 HostTimeout)

/-- A sequence of events: three sequential Online commands, a Reset while the polling thread is
idle, and one more Online command. -/
def creditEvents : List Event :=
  [Event.command (blankCommand 0 9), Event.command (blankCommand 0 9),
    Event.command (blankCommand 0 9), Event.reset [], Event.command (blankCommand 0 9)]

/-- A port whose response ring is full for the first three calls of `PostResponse`. -/
def busyPort : uda_c :=
  { idlePort with PostResponse := fun n => decide (3 ≤ n) }

/-- A server in the middle of a drain: the constructed server with the polling state `Run` and
five credits left. -/
def runningServer : mscp_server :=
  { mscp_server.ctor mscpValues with _pollState := PollingState.Run, _credits := 5 }

/-- An environment in which slot 5 is already used by device 7 and no other slot is used. -/
def slotFiveTaken : Nat → Option Nat :=
  fun slot => if slot = 5 then some 7 else none

/-- A server with a reset pending: the polling state is `InitRestart`, set by a `Reset` that
now waits for the acknowledgement. -/
def resetPending : mscp_server :=
  { runningServer with _pollState := PollingState.InitRestart }

/-- Two devices in memory: the device at address 1 has two DMA requests and one interrupt
request, every other device has none. -/
def twoDevices : Devices :=
  fun d => if d = 1 then ⟨[100, 101], [200]⟩ else ⟨[], []⟩

/-- A worker that ends, running its cleanup handler, as soon as it finds `worker_terminate`
set, and otherwise leaves the flags alone. -/
def cooperativeWorker : device_c → device_c :=
  fun device =>
    if device.worker_terminate then device_worker_pthread_cleanup_handler device else device

/-- A worker that hangs: it never looks at the flags. -/
def hangingWorker : device_c → device_c :=
  fun device => device

/-! ## Lemmas on byte regions -/

theorem loadLE_lt (p : Bytes) (off w : Nat) : loadLE p off w < 256 ^ w := by
  induction w generalizing off with
  | zero => simp [loadLE]
  | succ n ih =>
    have h1 := ih (off + 1)
    have h2 : p off % 256 < 256 := Nat.mod_lt _ (by norm_num)
    rw [loadLE, pow_succ]
    omega

theorem loadLE_storeLE_at (p : Bytes) (off w v : Nat) (n j : Nat) (h : j + n ≤ w) :
    loadLE (storeLE p off w v) (off + j) n = v / 256 ^ j % 256 ^ n := by
  induction n generalizing j with
  | zero => simp [loadLE, Nat.mod_one]
  | succ n ih =>
    have h1 := ih (j + 1) (by omega)
    have h2 : storeLE p off w v (off + j) = v / 256 ^ j % 256 := by
      have : off ≤ off + j ∧ off + j < off + w := by omega
      simp [storeLE, this]
    rw [loadLE, h2, show off + j + 1 = off + (j + 1) by omega, h1]
    rw [pow_succ 256 n, Nat.mul_comm (256 ^ n) 256, Nat.mod_mul, pow_succ, Nat.div_div_eq_div_mul]
    simp

theorem loadLE_storeLE_same (p : Bytes) (off w v : Nat) :
    loadLE (storeLE p off w v) off w = v % 256 ^ w := by
  have h := loadLE_storeLE_at p off w v w 0 (by omega)
  simpa using h

theorem loadLE_storeLE_disjoint (p : Bytes) (off w v off2 w2 : Nat)
    (h : off2 + w2 ≤ off ∨ off + w ≤ off2) :
    loadLE (storeLE p off w v) off2 w2 = loadLE p off2 w2 := by
  induction w2 generalizing off2 with
  | zero => simp [loadLE]
  | succ n ih =>
    have h1 := ih (off2 + 1) (by omega)
    have h2 : storeLE p off w v off2 = p off2 := by
      have : ¬ (off ≤ off2 ∧ off2 < off + w) := by omega
      simp [storeLE, this]
    rw [loadLE, loadLE, h1, h2]

theorem bytesAt_memcpy (disk : Bytes) (off : Nat) (d : List Nat) :
    bytesAt (offsetPtr (memcpy disk off d d.length) off) d.length = d := by
  apply List.ext_getElem
  · simp [bytesAt]
  · intro i h1 h2
    have hi : i < d.length := h2
    simp [bytesAt, offsetPtr, memcpy, hi]

/-! ## Unit numbers other than 0 -/

/-- C5: for a unit number other than 0, each of GetUnitStatus, Online,
SetUnitCharacteristics, Read and Write returns a status word built from UNIT_OFFLINE, whose
primary code is UNIT_OFFLINE, and moves no data: the port (hence its DMA log), the server
(hence the disk image and the online flag) and the message are what they were. -/
theorem C5_other_unit_is_offline (k : mscp_server_hpp) (self : mscp_server) (port : uda_c)
    (message : Message) (unitNumber modifiers : Nat)
    (hunit : unitNumber ≠ 0) (hcode : k.UNIT_OFFLINE < 256) :
    (∀ r ∈ [self.GetUnitStatus k port message unitNumber modifiers,
            self.Online k port message unitNumber modifiers,
            self.SetUnitCharacteristics k port message unitNumber modifiers,
            self.Read k port message unitNumber modifiers,
            self.Write k port message unitNumber modifiers],
      (r.status = STATUS k.UNIT_OFFLINE 3 ∨ r.status = STATUS k.UNIT_OFFLINE 0) ∧
      primaryCode r.status = k.UNIT_OFFLINE ∧
      r.port.dma = port.dma ∧ r.port = port ∧
      r.server._diskBuffer = self._diskBuffer ∧ r.server._unitOnline = self._unitOnline ∧
      r.server = self ∧ r.message = message) := by
  have h3 : primaryCode (STATUS k.UNIT_OFFLINE 3) = k.UNIT_OFFLINE := by
    simp only [primaryCode, STATUS]; omega
  have h0 : primaryCode (STATUS k.UNIT_OFFLINE 0) = k.UNIT_OFFLINE := by
    simp only [primaryCode, STATUS]; omega
  intro r hr
  simp only [List.mem_cons, List.mem_singleton, List.not_mem_nil, or_false] at hr
  rcases hr with rfl | rfl | rfl | rfl | rfl
  · simp [mscp_server.GetUnitStatus, hunit, h3]
  · simp [mscp_server.Online, hunit, h3]
  · simp [mscp_server.SetUnitCharacteristics, hunit, h0]
  · simp [mscp_server.Read, hunit, h0]
  · simp [mscp_server.Write, hunit, h0]

/-! ## SetControllerCharacteristics -/

/-- C8: SetControllerCharacteristics on a request whose MSCPVersion is 0 returns SUCCESS,
stores the request's HostTimeout and ControllerFlags in the server, and writes HostTimeout =
0xff and the port's 64-bit controller identifier into the response. -/
theorem C8_set_controller_characteristics_version_zero (k : mscp_server_hpp)
    (self : mscp_server) (port : uda_c) (message : Message)
    (hversion : loadLE (GetParameterPointer message) 2 2 = 0) :
    (self.SetControllerCharacteristics k port message).status = STATUS k.SUCCESS 0 ∧
    (self.SetControllerCharacteristics k port message).server._hostTimeout =
      loadLE (GetParameterPointer message) 6 2 ∧
    (self.SetControllerCharacteristics k port message).server._controllerFlags =
      loadLE (GetParameterPointer message) 0 2 ∧
    loadLE (GetParameterPointer (self.SetControllerCharacteristics k port message).message) 6 2 =
      0xff ∧
    loadLE (GetParameterPointer (self.SetControllerCharacteristics k port message).message) 8 8 =
      port.GetControllerIdentifier % 2 ^ 64 := by
  refine ⟨?_, ?_, ?_, ?_, ?_⟩
  · simp [mscp_server.SetControllerCharacteristics, hversion]
  · simp [mscp_server.SetControllerCharacteristics, hversion]
  · simp [mscp_server.SetControllerCharacteristics, hversion]
  · simp only [GetParameterPointer] at hversion
    simp only [mscp_server.SetControllerCharacteristics, GetParameterPointer, setParameters,
      hversion, ne_eq, not_true_eq_false, if_false]
    rw [loadLE_storeLE_disjoint _ 8 8 _ 6 2 (by omega), loadLE_storeLE_same]
    norm_num
  · simp only [GetParameterPointer] at hversion
    simp only [mscp_server.SetControllerCharacteristics, GetParameterPointer, setParameters,
      hversion, ne_eq, not_true_eq_false, if_false]
    rw [loadLE_storeLE_same]
    norm_num

/-- C9: SetControllerCharacteristics on a request whose MSCPVersion is not 0 returns the
status word of INVALID_COMMAND, whose primary code is INVALID_COMMAND, and changes nothing:
the server (hence the host timeout and the controller flags), the message (hence its
parameters) and the port are what they were. -/
theorem C9_set_controller_characteristics_bad_version (k : mscp_server_hpp)
    (self : mscp_server) (port : uda_c) (message : Message)
    (hversion : loadLE (GetParameterPointer message) 2 2 ≠ 0) (hcode : k.INVALID_COMMAND < 256) :
    (self.SetControllerCharacteristics k port message).status = STATUS k.INVALID_COMMAND 0 ∧
    primaryCode (self.SetControllerCharacteristics k port message).status = k.INVALID_COMMAND ∧
    (self.SetControllerCharacteristics k port message).server._hostTimeout = self._hostTimeout ∧
    (self.SetControllerCharacteristics k port message).server._controllerFlags =
      self._controllerFlags ∧
    GetParameterPointer (self.SetControllerCharacteristics k port message).message =
      GetParameterPointer message ∧
    (self.SetControllerCharacteristics k port message).server = self ∧
    (self.SetControllerCharacteristics k port message).message = message ∧
    (self.SetControllerCharacteristics k port message).port = port := by
  have h0 : primaryCode (STATUS k.INVALID_COMMAND 0) = k.INVALID_COMMAND := by
    simp only [primaryCode, STATUS]; omega
  simp [mscp_server.SetControllerCharacteristics, hversion, h0]

/-! ## Online -/

/-- C7: Online for unit 0 returns SUCCESS from any prior state, sets the online flag, and
writes UnitSize = _diskBufferSize / 512 into the response parameters. -/
theorem C7_online_unit_zero (k : mscp_server_hpp) (self : mscp_server) (port : uda_c)
    (message : Message) (modifiers : Nat) :
    (self.Online k port message 0 modifiers).status = STATUS k.SUCCESS 0 ∧
    (self.Online k port message 0 modifiers).server._unitOnline = true ∧
    loadLE (GetParameterPointer (self.Online k port message 0 modifiers).message) 24 4 =
      _diskBufferSize / 512 := by
  refine ⟨?_, ?_, ?_⟩
  · simp [mscp_server.Online]
  · simp [mscp_server.Online]
  · simp only [mscp_server.Online, ne_eq, not_true_eq_false, if_false, GetParameterPointer,
      setParameters]
    rw [loadLE_storeLE_disjoint _ 28 4 _ 24 4 (by omega), loadLE_storeLE_same]
    norm_num [_diskBufferSize]

/-- C6: Online on unit 0 of a server whose unit is already online returns SUCCESS, leaves the
online flag true, and leaves the server as it was: credits, host timeout, controller flags and
disk image are those a single Online left. The port is untouched, and the response is the one
the first Online gave for the same message. -/
theorem C6_online_idempotent (k : mscp_server_hpp) (self : mscp_server) (port : uda_c)
    (message : Message) (modifiers : Nat) (honline : self._unitOnline = true) :
    (self.Online k port message 0 modifiers).status = STATUS k.SUCCESS 0 ∧
    (self.Online k port message 0 modifiers).server._unitOnline = true ∧
    (self.Online k port message 0 modifiers).server = self ∧
    (self.Online k port message 0 modifiers).port = port ∧
    ∀ (before : mscp_server) (port0 : uda_c) (modifiers0 : Nat),
      (self.Online k port message 0 modifiers).message =
        (before.Online k port0 message 0 modifiers0).message := by
  refine ⟨?_, ?_, ?_, ?_, ?_⟩
  · simp [mscp_server.Online]
  · simp [mscp_server.Online]
  · cases self
    simp only [mscp_server.Online] at *
    simp [honline]
  · simp [mscp_server.Online]
  · intro before port0 modifiers0
    simp [mscp_server.Online]

/-! ## Read and Write: the three outcomes on unit 0 -/

theorem Read_lbn_rejected (k : mscp_server_hpp) (self : mscp_server) (port : uda_c)
    (message : Message) (modifiers : Nat)
    (h : (_diskBufferSize + 512) / 512 ≤ loadLE message.Message.Parameters 16 4) :
    self.Read k port message 0 modifiers =
      ⟨STATUS (k.INVALID_COMMAND + (0x1c <<< 8)) 0, message, self, port⟩ := by
  simp only [mscp_server.Read, GetParameterPointer, ne_eq, not_true_eq_false, if_false, ge_iff_le]
  rw [if_pos h]

theorem Read_count_rejected (k : mscp_server_hpp) (self : mscp_server) (port : uda_c)
    (message : Message) (modifiers : Nat)
    (h1 : loadLE message.Message.Parameters 16 4 < (_diskBufferSize + 512) / 512)
    (h2 : _diskBufferSize + 512 <
      loadLE message.Message.Parameters 16 4 * 512 + loadLE message.Message.Parameters 0 4) :
    self.Read k port message 0 modifiers =
      ⟨STATUS (k.INVALID_COMMAND + (0xc <<< 8)) 0, message, self, port⟩ := by
  simp only [mscp_server.Read, GetParameterPointer, ne_eq, not_true_eq_false, if_false, ge_iff_le]
  rw [if_neg (by omega), if_pos (by simp only [_diskBufferSize] at *; omega)]

theorem Read_accepted (k : mscp_server_hpp) (self : mscp_server) (port : uda_c)
    (message : Message) (modifiers : Nat)
    (h1 : loadLE message.Message.Parameters 16 4 < (_diskBufferSize + 512) / 512)
    (h2 : loadLE message.Message.Parameters 16 4 * 512 + loadLE message.Message.Parameters 0 4 ≤
      _diskBufferSize + 512) :
    self.Read k port message 0 modifiers =
      ⟨STATUS k.SUCCESS 0, setParameters message (storeLE message.Message.Parameters 16 4 0), self,
        port.DMAWrite (loadLE message.Message.Parameters 4 4 &&& 0x00ffffff)
          (loadLE message.Message.Parameters 0 4)
          (offsetPtr self._diskBuffer (loadLE message.Message.Parameters 16 4 * 512))⟩ := by
  have h3 : loadLE message.Message.Parameters 16 4 * 512 % 2 ^ 32 =
      loadLE message.Message.Parameters 16 4 * 512 := by
    simp only [_diskBufferSize] at *; omega
  simp only [mscp_server.Read, GetParameterPointer, ne_eq, not_true_eq_false, if_false, ge_iff_le]
  rw [if_neg (by omega), if_neg (by simp only [_diskBufferSize] at *; omega), h3]

theorem Write_lbn_rejected (k : mscp_server_hpp) (self : mscp_server) (port : uda_c)
    (message : Message) (modifiers : Nat)
    (h : (_diskBufferSize + 512) / 512 < loadLE message.Message.Parameters 16 4) :
    self.Write k port message 0 modifiers =
      ⟨STATUS (k.INVALID_COMMAND + (0x1c <<< 8)) 0, message, self, port⟩ := by
  simp only [mscp_server.Write, GetParameterPointer, ne_eq, not_true_eq_false, if_false, gt_iff_lt]
  rw [if_pos h]

theorem Write_count_rejected (k : mscp_server_hpp) (self : mscp_server) (port : uda_c)
    (message : Message) (modifiers : Nat)
    (h1 : loadLE message.Message.Parameters 16 4 ≤ (_diskBufferSize + 512) / 512)
    (h2 : _diskBufferSize + 512 <
      loadLE message.Message.Parameters 16 4 * 512 + loadLE message.Message.Parameters 0 4) :
    self.Write k port message 0 modifiers =
      ⟨STATUS (k.INVALID_COMMAND + (0x0c <<< 8)) 0, message, self, port⟩ := by
  simp only [mscp_server.Write, GetParameterPointer, ne_eq, not_true_eq_false, if_false, gt_iff_lt]
  rw [if_neg (by omega), if_pos (by simp only [_diskBufferSize] at *; omega)]

theorem Write_accepted (k : mscp_server_hpp) (self : mscp_server) (port : uda_c)
    (message : Message) (modifiers : Nat)
    (h2 : loadLE message.Message.Parameters 16 4 * 512 + loadLE message.Message.Parameters 0 4 ≤
      _diskBufferSize + 512) :
    self.Write k port message 0 modifiers =
      ⟨STATUS k.SUCCESS 0, setParameters message (storeLE message.Message.Parameters 16 4 0),
        { self with
          _diskBuffer := (memcpy self._diskBuffer (loadLE message.Message.Parameters 16 4 * 512)
            (port.DMARead (loadLE message.Message.Parameters 4 4 &&& 0x00ffffff)
              (loadLE message.Message.Parameters 0 4))
            (loadLE message.Message.Parameters 0 4)) },
        { port with
          dma := port.dma ++ [DMACall.read (loadLE message.Message.Parameters 4 4 &&& 0x00ffffff)
            (loadLE message.Message.Parameters 0 4)] }⟩ := by
  have h3 : loadLE message.Message.Parameters 16 4 * 512 % 2 ^ 32 =
      loadLE message.Message.Parameters 16 4 * 512 := by
    simp only [_diskBufferSize] at *; omega
  simp only [mscp_server.Write, GetParameterPointer, ne_eq, not_true_eq_false, if_false, gt_iff_lt,
    uda_c.doDMARead]
  rw [if_neg (by simp only [_diskBufferSize] at *; omega),
    if_neg (by simp only [_diskBufferSize] at *; omega), h3]

theorem primaryCode_STATUS (code flags : Nat) (h : code < 256) :
    primaryCode (STATUS code flags) = code := by
  simp only [primaryCode, STATUS]; omega

theorem primaryCode_STATUS_sub (code sub flags : Nat) (h : code < 256) :
    primaryCode (STATUS (code + (sub <<< 8)) flags) = code := by
  simp only [primaryCode, STATUS, Nat.shiftLeft_eq]; omega

theorem Write_bytes (k : mscp_server_hpp) (self : mscp_server) (port : uda_c)
    (message : Message) (modifiers l c : Nat) (d : List Nat)
    (hl : loadLE (GetParameterPointer message) 16 4 = l)
    (hc : loadLE (GetParameterPointer message) 0 4 = c)
    (hrange : l * 512 + c ≤ _diskBufferSize + 512)
    (hd : port.DMARead (loadLE (GetParameterPointer message) 4 4 &&& 0x00ffffff) c = d)
    (hlen : d.length = c) :
    (List.range c).map (fun i => (self.Write k port message 0 modifiers).server._diskBuffer
      (l * 512 + i)) = d := by
  simp only [GetParameterPointer] at hl hc hd ⊢
  subst hl hc
  rw [Write_accepted k self port message modifiers hrange]
  simp only [hd]
  have h := bytesAt_memcpy self._diskBuffer (loadLE message.Message.Parameters 16 4 * 512) d
  rw [hlen] at h
  simpa only [bytesAt, offsetPtr] using h

/-! ## Read and Write -/

/-- C2 as stated fails: a Read of 0 bytes at LBN 32769 satisfies l*512 + c <= imageSize + 512
(16777728 <= 16777728), yet Read returns a status other than SUCCESS and issues no DMA write. -/
theorem C2_read_at_end_of_buffer_rejected :
    loadLE (GetParameterPointer (transferCommand 33 32769 0)) 16 4 * 512 +
        loadLE (GetParameterPointer (transferCommand 33 32769 0)) 0 4 ≤ _diskBufferSize + 512 ∧
    ((mscp_server.ctor mscpValues).Read mscpValues idlePort (transferCommand 33 32769 0) 0 0).status
      ≠ STATUS mscpValues.SUCCESS 0 ∧
    ((mscp_server.ctor mscpValues).Read mscpValues idlePort (transferCommand 33 32769 0) 0 0).port.dma
      = [] := by
  decide

/-- C2, amended: for every LBN l below (imageSize + 512) / 512 and byte count c with
l*512 + c <= imageSize + 512, Read on unit 0 returns SUCCESS and issues one DMA write of exactly
c bytes, the bytes of the disk image at offsets [l*512, l*512 + c); the disk image is not
changed. -/
theorem C2_read_in_range (k : mscp_server_hpp) (self : mscp_server) (port : uda_c)
    (message : Message) (modifiers l c : Nat)
    (hl : loadLE (GetParameterPointer message) 16 4 = l)
    (hc : loadLE (GetParameterPointer message) 0 4 = c)
    (hlbn : l < (_diskBufferSize + 512) / 512)
    (hrange : l * 512 + c ≤ _diskBufferSize + 512) :
    (self.Read k port message 0 modifiers).status = STATUS k.SUCCESS 0 ∧
    (self.Read k port message 0 modifiers).port.dma =
      port.dma ++ [DMACall.write (loadLE (GetParameterPointer message) 4 4 &&& 0x00ffffff) c
        ((List.range c).map (fun i => self._diskBuffer (l * 512 + i)))] ∧
    (self.Read k port message 0 modifiers).server = self := by
  simp only [GetParameterPointer] at hl hc ⊢
  subst hl hc
  rw [Read_accepted k self port message modifiers hlbn hrange]
  exact ⟨rfl, rfl, rfl⟩

/-- C3: for every LBN l and byte count c with l*512 + c <= imageSize + 512, Write on unit 0
returns SUCCESS, asks the port for c bytes by one DMA read, and afterwards the disk image bytes
at offsets [l*512, l*512 + c) are the c bytes the DMA read returned. -/
theorem C3_write_in_range (k : mscp_server_hpp) (self : mscp_server) (port : uda_c)
    (message : Message) (modifiers l c : Nat) (d : List Nat)
    (hl : loadLE (GetParameterPointer message) 16 4 = l)
    (hc : loadLE (GetParameterPointer message) 0 4 = c)
    (hrange : l * 512 + c ≤ _diskBufferSize + 512)
    (hd : port.DMARead (loadLE (GetParameterPointer message) 4 4 &&& 0x00ffffff) c = d)
    (hlen : d.length = c) :
    (self.Write k port message 0 modifiers).status = STATUS k.SUCCESS 0 ∧
    (self.Write k port message 0 modifiers).port.dma =
      port.dma ++ [DMACall.read (loadLE (GetParameterPointer message) 4 4 &&& 0x00ffffff) c] ∧
    (List.range c).map (fun i => (self.Write k port message 0 modifiers).server._diskBuffer
      (l * 512 + i)) = d := by
  simp only [GetParameterPointer] at hl hc hd ⊢
  subst hl hc
  rw [Write_accepted k self port message modifiers hrange]
  refine ⟨rfl, rfl, ?_⟩
  simp only [hd]
  have h := bytesAt_memcpy self._diskBuffer (loadLE message.Message.Parameters 16 4 * 512) d
  rw [hlen] at h
  simpa only [bytesAt, offsetPtr] using h

/-- C4: for every LBN l and byte count c (the 32-bit fields of the message) with
l*512 + c > imageSize + 512, both Read and Write on unit 0 return a status word whose primary
code is INVALID_COMMAND, make no DMA call (the port is untouched) and leave the disk image, and
the whole server, as it was. -/
theorem C4_out_of_range_rejected (k : mscp_server_hpp) (self : mscp_server) (port : uda_c)
    (message : Message) (modifiers l c : Nat)
    (hl : loadLE (GetParameterPointer message) 16 4 = l)
    (hc : loadLE (GetParameterPointer message) 0 4 = c)
    (hover : l * 512 + c > _diskBufferSize + 512)
    (hcode : k.INVALID_COMMAND < 256) :
    ∀ r ∈ [self.Read k port message 0 modifiers, self.Write k port message 0 modifiers],
      primaryCode r.status = k.INVALID_COMMAND ∧
      r.port.dma = port.dma ∧ r.port = port ∧
      r.server._diskBuffer = self._diskBuffer ∧ r.server = self := by
  simp only [GetParameterPointer] at hl hc
  subst hl hc
  intro r hr
  simp only [List.mem_cons, List.mem_singleton, List.not_mem_nil, or_false] at hr
  rcases hr with rfl | rfl
  · by_cases h1 : (_diskBufferSize + 512) / 512 ≤ loadLE message.Message.Parameters 16 4
    · rw [Read_lbn_rejected k self port message modifiers h1]
      exact ⟨primaryCode_STATUS_sub _ _ _ hcode, rfl, rfl, rfl, rfl⟩
    · rw [Read_count_rejected k self port message modifiers (by omega) hover]
      exact ⟨primaryCode_STATUS_sub _ _ _ hcode, rfl, rfl, rfl, rfl⟩
  · by_cases h1 : (_diskBufferSize + 512) / 512 < loadLE message.Message.Parameters 16 4
    · rw [Write_lbn_rejected k self port message modifiers h1]
      exact ⟨primaryCode_STATUS_sub _ _ _ hcode, rfl, rfl, rfl, rfl⟩
    · rw [Write_count_rejected k self port message modifiers (by omega) hover]
      exact ⟨primaryCode_STATUS_sub _ _ _ hcode, rfl, rfl, rfl, rfl⟩

/-- C1: Write followed by Read round-trips. For every LBN l and byte count c that both Write
and Read accept on unit 0 (each returns SUCCESS) and every c-byte buffer d returned by the DMA
read of the Write, the Read that follows issues one DMA write of c bytes whose content is
exactly d. -/
theorem C1_write_then_read_roundtrip (k : mscp_server_hpp) (self : mscp_server) (port : uda_c)
    (wr rd : Message) (modifiers l c : Nat) (d : List Nat)
    (hsuccess : k.SUCCESS < 256) (hinvalid : k.INVALID_COMMAND < 256)
    (hcodes : k.SUCCESS ≠ k.INVALID_COMMAND)
    (hwl : loadLE (GetParameterPointer wr) 16 4 = l)
    (hwc : loadLE (GetParameterPointer wr) 0 4 = c)
    (hrl : loadLE (GetParameterPointer rd) 16 4 = l)
    (hrc : loadLE (GetParameterPointer rd) 0 4 = c)
    (hd : port.DMARead (loadLE (GetParameterPointer wr) 4 4 &&& 0x00ffffff) c = d)
    (hlen : d.length = c)
    (hwrite : (self.Write k port wr 0 modifiers).status = STATUS k.SUCCESS 0)
    (hread : ((self.Write k port wr 0 modifiers).server.Read k
      (self.Write k port wr 0 modifiers).port rd 0 modifiers).status = STATUS k.SUCCESS 0) :
    ((self.Write k port wr 0 modifiers).server.Read k
      (self.Write k port wr 0 modifiers).port rd 0 modifiers).port.dma =
      (self.Write k port wr 0 modifiers).port.dma ++
        [DMACall.write (loadLE (GetParameterPointer rd) 4 4 &&& 0x00ffffff) c d] := by
  have hS : primaryCode (STATUS k.SUCCESS 0) = k.SUCCESS := primaryCode_STATUS _ _ hsuccess
  -- the Read was accepted, so both of its checks passed
  have h1 : l < (_diskBufferSize + 512) / 512 := by
    by_contra hcon
    have hge : (_diskBufferSize + 512) / 512 ≤ loadLE rd.Message.Parameters 16 4 := by
      simp only [GetParameterPointer] at hrl; omega
    rw [Read_lbn_rejected k _ _ rd modifiers hge] at hread
    have := congrArg primaryCode hread
    rw [primaryCode_STATUS_sub _ _ _ hinvalid, hS] at this
    exact hcodes this.symm
  have h2 : l * 512 + c ≤ _diskBufferSize + 512 := by
    by_contra hcon
    simp only [GetParameterPointer] at hrl hrc
    rw [Read_count_rejected k _ _ rd modifiers (by omega) (by omega)] at hread
    have := congrArg primaryCode hread
    rw [primaryCode_STATUS_sub _ _ _ hinvalid, hS] at this
    exact hcodes this.symm
  have hw := Write_bytes k self port wr modifiers l c d hwl hwc h2 hd hlen
  have hr := Read_accepted k (self.Write k port wr 0 modifiers).server
    (self.Write k port wr 0 modifiers).port rd modifiers
    (by simp only [GetParameterPointer] at hrl; omega)
    (by simp only [GetParameterPointer] at hrl hrc; omega)
  rw [hr]
  simp only [GetParameterPointer] at hrl hrc ⊢
  have hptr : offsetPtr (self.Write k port wr 0 modifiers).server._diskBuffer (l * 512) =
      fun i => (self.Write k port wr 0 modifiers).server._diskBuffer (l * 512 + i) := rfl
  simp only [uda_c.DMAWrite, bytesAt, hrl, hrc, hptr, hw]

/-! ## Credits -/

theorem dispatch_credits (k : mscp_server_hpp) (self : mscp_server) (port : uda_c)
    (message : Message) (h : Handled) (hd : dispatch k self port message = some h) :
    h.server._credits = self._credits := by
  unfold dispatch at hd
  simp only at hd
  split_ifs at hd <;> simp only [Option.some.injEq] at hd <;> subst hd
  · unfold mscp_server.GetUnitStatus; simp only; split_ifs <;> rfl
  · unfold mscp_server.Online; simp only; split_ifs <;> rfl
  · unfold mscp_server.SetControllerCharacteristics; simp only; split_ifs <;> rfl
  · unfold mscp_server.SetUnitCharacteristics; simp only; split_ifs <;> rfl
  · unfold mscp_server.Read; simp only; split_ifs <;> rfl
  · unfold mscp_server.Write; simp only; split_ifs <;> rfl

theorem grantCredits_le (k : mscp_server_hpp) (self : mscp_server) (message : Message) :
    (grantCredits k self message).grantedCredits ≤ self._credits := by
  unfold grantCredits
  split_ifs
  · exact Nat.min_le_left _ _
  · exact Nat.zero_le _

theorem grantCredits_balance (k : mscp_server_hpp) (self : mscp_server) (message : Message)
    (h : self._credits < 2 ^ 32) :
    (grantCredits k self message).server._credits =
      self._credits - (grantCredits k self message).grantedCredits := by
  unfold grantCredits
  split_ifs
  · have := Nat.min_le_left self._credits (k.MAX_CREDITS % 2 ^ 32)
    simp only
    omega
  · simp

theorem pollMessage_credits (k : mscp_server_hpp) (self : mscp_server) (port : uda_c)
    (message : Message) (r : Polled) (h : self._credits < 2 ^ 32)
    (hp : pollMessage k self port message = some r) :
    r.grantedCredits + r.server._credits = self._credits := by
  unfold pollMessage at hp
  split at hp
  · exact absurd hp (by simp)
  · rename_i hd heq
    have hc := dispatch_credits k self port message hd heq
    simp only [Option.some.injEq] at hp
    subst hp
    simp only
    have h1 := grantCredits_le k hd.server (setEndcode k hd.message hd.status)
    have h2 := grantCredits_balance k hd.server (setEndcode k hd.message hd.status) (by omega)
    omega

theorem Ledger.step_conserves (k : mscp_server_hpp) (l : Ledger) (e : Event)
    (hinit : k.INIT_CREDITS < 2 ^ 32) (h : l.granted + l.server._credits = k.INIT_CREDITS) :
    (l.step k e).granted + (l.step k e).server._credits = k.INIT_CREDITS := by
  cases e with
  | command message =>
    simp only [Ledger.step]
    split
    · exact h
    · rename_i r hp
      have := pollMessage_credits k l.server l.port message r (by omega) hp
      simp only
      omega
  | reset wake =>
    simp only [Ledger.step]
    split
    · exact h
    · rename_i s hs
      unfold mscp_server.Reset at hs
      split_ifs at hs <;> simp only [Option.some.injEq] at hs <;> subst hs <;>
        simp only [Nat.mod_eq_of_lt hinit, Nat.zero_add]

theorem Ledger.run_conserves (k : mscp_server_hpp) (l : Ledger) (events : List Event)
    (hinit : k.INIT_CREDITS < 2 ^ 32) (h : l.granted + l.server._credits = k.INIT_CREDITS) :
    (l.run k events).granted + (l.run k events).server._credits = k.INIT_CREDITS := by
  induction events generalizing l with
  | nil => exact h
  | cons e rest ih =>
    simp only [Ledger.run, List.foldl_cons]
    exact ih (l.step k e) (Ledger.step_conserves k l e hinit h)

/-- C10: after any sequence of events since construction (commands handled by the polling
thread, calls of Reset), the credits granted since construction or the last return of Reset
plus the remaining balance equal INIT_CREDITS, so the granted sum never exceeds INIT_CREDITS;
and the next grant never exceeds the balance, so the unsigned subtraction does not wrap. -/
theorem C10_granted_credits_bounded (k : mscp_server_hpp) (port : uda_c) (events : List Event)
    (hinit : k.INIT_CREDITS < 2 ^ 32) :
    ((Ledger.init k port).run k events).granted +
      ((Ledger.init k port).run k events).server._credits = k.INIT_CREDITS ∧
    ((Ledger.init k port).run k events).granted ≤ k.INIT_CREDITS ∧
    ∀ message : Message,
      (grantCredits k ((Ledger.init k port).run k events).server message).grantedCredits ≤
        ((Ledger.init k port).run k events).server._credits ∧
      (grantCredits k ((Ledger.init k port).run k events).server message).server._credits =
        ((Ledger.init k port).run k events).server._credits -
          (grantCredits k ((Ledger.init k port).run k events).server message).grantedCredits := by
  have h0 : (Ledger.init k port).granted + (Ledger.init k port).server._credits =
      k.INIT_CREDITS := by
    simp only [Ledger.init, mscp_server.ctor, Nat.mod_eq_of_lt hinit, Nat.zero_add]
  have h := Ledger.run_conserves k (Ledger.init k port) events hinit h0
  refine ⟨h, by omega, ?_⟩
  intro message
  exact ⟨grantCredits_le k _ message, grantCredits_balance k _ message (by omega)⟩

/-! ## The theorems at concrete inputs -/

/-- C1 at the end-to-end case: 512 bytes at LBN 10 on a freshly constructed server. -/
theorem C1_write_then_read_roundtrip_witness :
    (mscpValues.SUCCESS < 256 ∧ mscpValues.INVALID_COMMAND < 256 ∧
      mscpValues.SUCCESS ≠ mscpValues.INVALID_COMMAND) ∧
    (loadLE (GetParameterPointer (transferCommand 34 10 512)) 16 4 = 10 ∧
      loadLE (GetParameterPointer (transferCommand 34 10 512)) 0 4 = 512 ∧
      loadLE (GetParameterPointer (transferCommand 33 10 512)) 16 4 = 10 ∧
      loadLE (GetParameterPointer (transferCommand 33 10 512)) 0 4 = 512) ∧
    (List.replicate 512 0xa5).length = 512 ∧
    (((mscp_server.ctor mscpValues).Write mscpValues idlePort (transferCommand 34 10 512) 0
        0).server.Read mscpValues
      ((mscp_server.ctor mscpValues).Write mscpValues idlePort (transferCommand 34 10 512) 0 0).port
      (transferCommand 33 10 512) 0 0).port.dma =
      ((mscp_server.ctor mscpValues).Write mscpValues idlePort (transferCommand 34 10 512) 0
        0).port.dma ++
        [DMACall.write (loadLE (GetParameterPointer (transferCommand 33 10 512)) 4 4 &&& 0x00ffffff)
          512 (List.replicate 512 0xa5)] :=
  ⟨by decide, by decide, List.length_replicate _ _,
    C1_write_then_read_roundtrip mscpValues (mscp_server.ctor mscpValues) idlePort
      (transferCommand 34 10 512) (transferCommand 33 10 512) 0 10 512 (List.replicate 512 0xa5)
      (by decide) (by decide) (by decide) (by decide) (by decide) (by decide) (by decide)
      rfl (List.length_replicate _ _) (by decide) (by decide)⟩

/-- C2 (amended) at a concrete input: a Read of 512 bytes at LBN 10. -/
theorem C2_read_in_range_witness :
    (loadLE (GetParameterPointer (transferCommand 33 10 512)) 16 4 = 10 ∧
      loadLE (GetParameterPointer (transferCommand 33 10 512)) 0 4 = 512) ∧
    (10 < (_diskBufferSize + 512) / 512 ∧ 10 * 512 + 512 ≤ _diskBufferSize + 512) ∧
    (((mscp_server.ctor mscpValues).Read mscpValues idlePort (transferCommand 33 10 512) 0
        0).status = STATUS mscpValues.SUCCESS 0 ∧
      ((mscp_server.ctor mscpValues).Read mscpValues idlePort (transferCommand 33 10 512) 0
        0).port.dma =
        idlePort.dma ++
          [DMACall.write
            (loadLE (GetParameterPointer (transferCommand 33 10 512)) 4 4 &&& 0x00ffffff) 512
            ((List.range 512).map (fun i => (mscp_server.ctor mscpValues)._diskBuffer (10 * 512 + i)))] ∧
      ((mscp_server.ctor mscpValues).Read mscpValues idlePort (transferCommand 33 10 512) 0
        0).server = mscp_server.ctor mscpValues) :=
  ⟨by decide, by decide,
    C2_read_in_range mscpValues (mscp_server.ctor mscpValues) idlePort (transferCommand 33 10 512)
      0 10 512 (by decide) (by decide) (by decide) (by decide)⟩

/-- C3 at a concrete input: a Write of 512 bytes at LBN 10. -/
theorem C3_write_in_range_witness :
    (loadLE (GetParameterPointer (transferCommand 34 10 512)) 16 4 = 10 ∧
      loadLE (GetParameterPointer (transferCommand 34 10 512)) 0 4 = 512) ∧
    10 * 512 + 512 ≤ _diskBufferSize + 512 ∧
    (List.replicate 512 0xa5).length = 512 ∧
    (((mscp_server.ctor mscpValues).Write mscpValues idlePort (transferCommand 34 10 512) 0
        0).status = STATUS mscpValues.SUCCESS 0 ∧
      ((mscp_server.ctor mscpValues).Write mscpValues idlePort (transferCommand 34 10 512) 0
        0).port.dma =
        idlePort.dma ++
          [DMACall.read
            (loadLE (GetParameterPointer (transferCommand 34 10 512)) 4 4 &&& 0x00ffffff) 512] ∧
      (List.range 512).map
        (fun i => ((mscp_server.ctor mscpValues).Write mscpValues idlePort
          (transferCommand 34 10 512) 0 0).server._diskBuffer (10 * 512 + i)) =
        List.replicate 512 0xa5) :=
  ⟨by decide, by decide, List.length_replicate _ _,
    C3_write_in_range mscpValues (mscp_server.ctor mscpValues) idlePort (transferCommand 34 10 512)
      0 10 512 (List.replicate 512 0xa5) (by decide) (by decide) (by decide) rfl (List.length_replicate _ _)⟩

/-- C4 at a concrete input: 1024 bytes at the last block, LBN 32768, overrun the buffer. -/
theorem C4_out_of_range_rejected_witness :
    (loadLE (GetParameterPointer (transferCommand 33 32768 1024)) 16 4 = 32768 ∧
      loadLE (GetParameterPointer (transferCommand 33 32768 1024)) 0 4 = 1024) ∧
    32768 * 512 + 1024 > _diskBufferSize + 512 ∧ mscpValues.INVALID_COMMAND < 256 ∧
    ∀ r ∈ [(mscp_server.ctor mscpValues).Read mscpValues idlePort
              (transferCommand 33 32768 1024) 0 0,
            (mscp_server.ctor mscpValues).Write mscpValues idlePort
              (transferCommand 33 32768 1024) 0 0],
      primaryCode r.status = mscpValues.INVALID_COMMAND ∧
      r.port.dma = idlePort.dma ∧ r.port = idlePort ∧
      r.server._diskBuffer = (mscp_server.ctor mscpValues)._diskBuffer ∧
      r.server = mscp_server.ctor mscpValues :=
  ⟨by decide, by decide, by decide,
    C4_out_of_range_rejected mscpValues (mscp_server.ctor mscpValues) idlePort
      (transferCommand 33 32768 1024) 0 32768 1024 (by decide) (by decide) (by decide)
      (by decide)⟩

/-- C5 at a concrete input: unit 1. -/
theorem C5_other_unit_is_offline_witness :
    (1 ≠ 0 ∧ mscpValues.UNIT_OFFLINE < 256) ∧
    ∀ r ∈ [(mscp_server.ctor mscpValues).GetUnitStatus mscpValues idlePort
              (transferCommand 33 10 512) 1 0,
            (mscp_server.ctor mscpValues).Online mscpValues idlePort
              (transferCommand 33 10 512) 1 0,
            (mscp_server.ctor mscpValues).SetUnitCharacteristics mscpValues idlePort
              (transferCommand 33 10 512) 1 0,
            (mscp_server.ctor mscpValues).Read mscpValues idlePort
              (transferCommand 33 10 512) 1 0,
            (mscp_server.ctor mscpValues).Write mscpValues idlePort
              (transferCommand 33 10 512) 1 0],
      (r.status = STATUS mscpValues.UNIT_OFFLINE 3 ∨ r.status = STATUS mscpValues.UNIT_OFFLINE 0) ∧
      primaryCode r.status = mscpValues.UNIT_OFFLINE ∧
      r.port.dma = idlePort.dma ∧ r.port = idlePort ∧
      r.server._diskBuffer = (mscp_server.ctor mscpValues)._diskBuffer ∧
      r.server._unitOnline = (mscp_server.ctor mscpValues)._unitOnline ∧
      r.server = mscp_server.ctor mscpValues ∧ r.message = transferCommand 33 10 512 :=
  ⟨by decide,
    C5_other_unit_is_offline mscpValues (mscp_server.ctor mscpValues) idlePort
      (transferCommand 33 10 512) 1 0 (by decide) (by decide)⟩

/-- C6 at a concrete input: the server left by a first Online of a fresh server. -/
theorem C6_online_idempotent_witness :
    ((mscp_server.ctor mscpValues).Online mscpValues idlePort (blankCommand 0 9) 0
      0).server._unitOnline = true ∧
    (((mscp_server.ctor mscpValues).Online mscpValues idlePort (blankCommand 0 9) 0 0).server.Online
        mscpValues idlePort (blankCommand 0 9) 0 0).status = STATUS mscpValues.SUCCESS 0 ∧
    (((mscp_server.ctor mscpValues).Online mscpValues idlePort (blankCommand 0 9) 0 0).server.Online
        mscpValues idlePort (blankCommand 0 9) 0 0).server._unitOnline = true ∧
    (((mscp_server.ctor mscpValues).Online mscpValues idlePort (blankCommand 0 9) 0 0).server.Online
        mscpValues idlePort (blankCommand 0 9) 0 0).server =
      ((mscp_server.ctor mscpValues).Online mscpValues idlePort (blankCommand 0 9) 0 0).server ∧
    (((mscp_server.ctor mscpValues).Online mscpValues idlePort (blankCommand 0 9) 0 0).server.Online
        mscpValues idlePort (blankCommand 0 9) 0 0).port = idlePort ∧
    ∀ (before : mscp_server) (port0 : uda_c) (modifiers0 : Nat),
      (((mscp_server.ctor mscpValues).Online mscpValues idlePort (blankCommand 0 9) 0
          0).server.Online mscpValues idlePort (blankCommand 0 9) 0 0).message =
        (before.Online mscpValues port0 (blankCommand 0 9) 0 modifiers0).message :=
  ⟨by decide,
    C6_online_idempotent mscpValues
      ((mscp_server.ctor mscpValues).Online mscpValues idlePort (blankCommand 0 9) 0 0).server
      idlePort (blankCommand 0 9) 0 (by decide)⟩

/-- C8 at a concrete input: version 0, flags 0x81, host timeout 60. -/
theorem C8_set_controller_characteristics_version_zero_witness :
    loadLE (GetParameterPointer (controllerCommand 0 0x81 60)) 2 2 = 0 ∧
    ((mscp_server.ctor mscpValues).SetControllerCharacteristics mscpValues idlePort
      (controllerCommand 0 0x81 60)).status = STATUS mscpValues.SUCCESS 0 ∧
    ((mscp_server.ctor mscpValues).SetControllerCharacteristics mscpValues idlePort
      (controllerCommand 0 0x81 60)).server._hostTimeout =
      loadLE (GetParameterPointer (controllerCommand 0 0x81 60)) 6 2 ∧
    ((mscp_server.ctor mscpValues).SetControllerCharacteristics mscpValues idlePort
      (controllerCommand 0 0x81 60)).server._controllerFlags =
      loadLE (GetParameterPointer (controllerCommand 0 0x81 60)) 0 2 ∧
    loadLE (GetParameterPointer ((mscp_server.ctor mscpValues).SetControllerCharacteristics
      mscpValues idlePort (controllerCommand 0 0x81 60)).message) 6 2 = 0xff ∧
    loadLE (GetParameterPointer ((mscp_server.ctor mscpValues).SetControllerCharacteristics
      mscpValues idlePort (controllerCommand 0 0x81 60)).message) 8 8 =
      idlePort.GetControllerIdentifier % 2 ^ 64 :=
  ⟨by decide,
    C8_set_controller_characteristics_version_zero mscpValues (mscp_server.ctor mscpValues)
      idlePort (controllerCommand 0 0x81 60) (by decide)⟩

/-- C9 at a concrete input: version 1. -/
theorem C9_set_controller_characteristics_bad_version_witness :
    (loadLE (GetParameterPointer (controllerCommand 1 0x81 60)) 2 2 ≠ 0 ∧
      mscpValues.INVALID_COMMAND < 256) ∧
    ((mscp_server.ctor mscpValues).SetControllerCharacteristics mscpValues idlePort
      (controllerCommand 1 0x81 60)).status = STATUS mscpValues.INVALID_COMMAND 0 ∧
    primaryCode ((mscp_server.ctor mscpValues).SetControllerCharacteristics mscpValues idlePort
      (controllerCommand 1 0x81 60)).status = mscpValues.INVALID_COMMAND ∧
    ((mscp_server.ctor mscpValues).SetControllerCharacteristics mscpValues idlePort
      (controllerCommand 1 0x81 60)).server._hostTimeout =
      (mscp_server.ctor mscpValues)._hostTimeout ∧
    ((mscp_server.ctor mscpValues).SetControllerCharacteristics mscpValues idlePort
      (controllerCommand 1 0x81 60)).server._controllerFlags =
      (mscp_server.ctor mscpValues)._controllerFlags ∧
    GetParameterPointer ((mscp_server.ctor mscpValues).SetControllerCharacteristics mscpValues
      idlePort (controllerCommand 1 0x81 60)).message =
      GetParameterPointer (controllerCommand 1 0x81 60) ∧
    ((mscp_server.ctor mscpValues).SetControllerCharacteristics mscpValues idlePort
      (controllerCommand 1 0x81 60)).server = mscp_server.ctor mscpValues ∧
    ((mscp_server.ctor mscpValues).SetControllerCharacteristics mscpValues idlePort
      (controllerCommand 1 0x81 60)).message = controllerCommand 1 0x81 60 ∧
    ((mscp_server.ctor mscpValues).SetControllerCharacteristics mscpValues idlePort
      (controllerCommand 1 0x81 60)).port = idlePort :=
  ⟨by decide,
    C9_set_controller_characteristics_bad_version mscpValues (mscp_server.ctor mscpValues)
      idlePort (controllerCommand 1 0x81 60) (by decide) (by decide)⟩

/-- C10 at a concrete input: three sequential Online commands, a Reset while idle, and one
more command. -/
theorem C10_granted_credits_bounded_witness :
    mscpValues.INIT_CREDITS < 2 ^ 32 ∧
    (((Ledger.init mscpValues idlePort).run mscpValues creditEvents).granted +
      ((Ledger.init mscpValues idlePort).run mscpValues creditEvents).server._credits =
        mscpValues.INIT_CREDITS ∧
    ((Ledger.init mscpValues idlePort).run mscpValues creditEvents).granted ≤
      mscpValues.INIT_CREDITS ∧
    ∀ message : Message,
      (grantCredits mscpValues ((Ledger.init mscpValues idlePort).run mscpValues creditEvents).server
        message).grantedCredits ≤
        ((Ledger.init mscpValues idlePort).run mscpValues creditEvents).server._credits ∧
      (grantCredits mscpValues ((Ledger.init mscpValues idlePort).run mscpValues creditEvents).server
        message).server._credits =
        ((Ledger.init mscpValues idlePort).run mscpValues creditEvents).server._credits -
          (grantCredits mscpValues
            ((Ledger.init mscpValues idlePort).run mscpValues creditEvents).server
            message).grantedCredits) :=
  ⟨by decide, C10_granted_credits_bounded mscpValues idlePort creditEvents (by decide)⟩

/-! ## Reset -/

theorem resetWaitLoop_iff (st : PollingState) (wake : List PollingState) :
    resetWaitLoop st wake = true ↔ st = PollingState.Wait ∨ PollingState.Wait ∈ wake := by
  induction wake generalizing st with
  | nil => cases st <;> simp [resetWaitLoop]
  | cons st1 rest ih =>
    cases st
    · simp [resetWaitLoop]
    all_goals
      simp only [resetWaitLoop, ih, List.mem_cons, false_or, reduceCtorEq]
      constructor
      · rintro (h | h)
        · exact Or.inl h.symm
        · exact Or.inr h
      · rintro (h | h)
        · exact Or.inl h.symm
        · exact Or.inr h

/-- C11: Reset returns exactly when the polling state is Wait at the call or at some wake-up
of its wait loop, and whenever it returns the credit balance is INIT_CREDITS, whatever the
balance was before. -/
theorem C11_reset_restores_credits (k : mscp_server_hpp) (self : mscp_server)
    (wake : List PollingState) (hinit : k.INIT_CREDITS < 2 ^ 32) :
    ((∃ s, self.Reset k wake = some s) ↔
      (self._pollState = PollingState.Wait ∨ PollingState.Wait ∈ wake)) ∧
    ∀ s, self.Reset k wake = some s → s._credits = k.INIT_CREDITS := by
  have hmod : k.INIT_CREDITS % 2 ^ 32 = k.INIT_CREDITS := Nat.mod_eq_of_lt hinit
  constructor
  · unfold mscp_server.Reset
    by_cases h1 : self._pollState = PollingState.Wait
    · simp [h1]
    · by_cases h2 : resetWaitLoop PollingState.InitRestart wake = true
      · have h3 := (resetWaitLoop_iff PollingState.InitRestart wake).mp h2
        simp only [reduceCtorEq, false_or] at h3
        simp [h1, h2, h3]
      · have h3 : ¬ PollingState.Wait ∈ wake := by
          intro hmem
          exact h2 ((resetWaitLoop_iff PollingState.InitRestart wake).mpr (Or.inr hmem))
        simp [h1, h2, h3]
  · intro s hs
    unfold mscp_server.Reset at hs
    split_ifs at hs <;> simp only [Option.some.injEq] at hs <;> subst hs <;> exact hmod

/-- C16: Reset called while the polling state is Wait returns without a single call of
pthread_cond_wait, whatever wake-ups the environment could offer; the server it leaves has the
polling state Wait and INIT_CREDITS credits, and is otherwise the server before the call. -/
theorem C16_reset_while_waiting (k : mscp_server_hpp) (self : mscp_server)
    (wake : List PollingState) (hwait : self._pollState = PollingState.Wait)
    (hinit : k.INIT_CREDITS < 2 ^ 32) :
    self.ResetWaitCalls wake = 0 ∧
    ∃ s, self.Reset k wake = some s ∧ self.Reset k [] = some s ∧
      s._pollState = PollingState.Wait ∧ s._credits = k.INIT_CREDITS ∧
      s = { self with _credits := k.INIT_CREDITS } := by
  have hmod : k.INIT_CREDITS % 2 ^ 32 = k.INIT_CREDITS := Nat.mod_eq_of_lt hinit
  refine ⟨by simp [mscp_server.ResetWaitCalls, hwait], { self with _credits := k.INIT_CREDITS },
    ?_, ?_, hwait, rfl, rfl⟩
  · simp only [mscp_server.Reset, hwait, ne_eq, not_true_eq_false, if_false, hmod]
  · simp only [mscp_server.Reset, hwait, ne_eq, not_true_eq_false, if_false, hmod]

/-! ## Priority requests -/

/-- C18: set_priority_slot fails an assertion for slot 0 and for every slot >=
PRIORITY_SLOT_COUNT, the request being as it was; for every other slot it returns with the slot
stored in the request, whatever device find_by_request_slot reports for that slot: a different
device only sets off the warning. -/
theorem C18_set_priority_slot (PRIORITY_SLOT_COUNT : Nat) (find_by_request_slot : Nat → Option Nat)
    (self : priority_request_c) (priority_slot : Nat) :
    ((priority_slot = 0 ∨ priority_slot ≥ PRIORITY_SLOT_COUNT) →
      self.set_priority_slot PRIORITY_SLOT_COUNT find_by_request_slot priority_slot =
        Asserted.failed ⟨self, false⟩) ∧
    ((0 < priority_slot ∧ priority_slot < PRIORITY_SLOT_COUNT) →
      ∃ warned, self.set_priority_slot PRIORITY_SLOT_COUNT find_by_request_slot priority_slot =
          Asserted.returned ⟨{ self with slot := priority_slot }, warned⟩ ∧
        (warned = true ↔ ∃ other, find_by_request_slot priority_slot = some other ∧
          some other ≠ self.device)) := by
  constructor
  · intro h
    unfold priority_request_c.set_priority_slot
    by_cases h0 : priority_slot > 0
    · have h1 : ¬ priority_slot < PRIORITY_SLOT_COUNT := by omega
      simp [h0, h1]
    · simp [h0]
  · rintro ⟨h0, h1⟩
    refine ⟨decide (find_by_request_slot priority_slot ≠ none ∧
      find_by_request_slot priority_slot ≠ self.device), ?_, ?_⟩
    · unfold priority_request_c.set_priority_slot
      simp [h0, h1]
    · cases hf : find_by_request_slot priority_slot with
      | none => simp
      | some d => simp

/-- C19: set_level returns exactly for the levels 4, 5, 6 and 7, and then the request holds
level_index = level - 4, a value in 0..3, nothing else being changed; for every other level
the assertion fails. -/
theorem C19_set_level (self : intr_request_c) (level : Nat) :
    ((level = 4 ∨ level = 5 ∨ level = 6 ∨ level = 7) →
      self.set_level level = Asserted.returned { self with level_index := level - 4 } ∧
      level - 4 ≤ 3) ∧
    (¬ (level = 4 ∨ level = 5 ∨ level = 6 ∨ level = 7) →
      self.set_level level = Asserted.failed self) := by
  constructor
  · intro h
    have h1 : level ≥ 4 ∧ level ≤ 7 := by omega
    refine ⟨?_, by omega⟩
    unfold intr_request_c.set_level
    simp [h1]
  · intro h
    have h1 : ¬ (level ≥ 4 ∧ level ≤ 7) := by omega
    unfold intr_request_c.set_level
    rw [if_pos h1]

/-- C20: set_vector returns exactly for the vectors that are multiples of 4, and then the
request holds that vector unchanged; for every other vector the assertion fails. So whenever
the call returns, the stored vector is a multiple of 4. -/
theorem C20_set_vector (self : intr_request_c) (vector : Nat) :
    (4 ∣ vector → self.set_vector vector = Asserted.returned { self with vector := vector }) ∧
    (¬ 4 ∣ vector → self.set_vector vector = Asserted.failed self) ∧
    ∀ r, self.set_vector vector = Asserted.returned r → r.vector = vector ∧ 4 ∣ r.vector := by
  have hand : vector &&& 3 = vector % 4 := Nat.and_pow_two_sub_one_eq_mod vector 2
  have hdvd : 4 ∣ vector ↔ vector % 4 = 0 := Nat.dvd_iff_mod_eq_zero
  have hyes : 4 ∣ vector →
      self.set_vector vector = Asserted.returned { self with vector := vector } := by
    intro h
    unfold intr_request_c.set_vector
    rw [if_neg (by rw [hand]; simpa using hdvd.mp h)]
  have hno : ¬ 4 ∣ vector → self.set_vector vector = Asserted.failed self := by
    intro h
    unfold intr_request_c.set_vector
    rw [if_pos (by rw [hand]; exact fun h0 => h (hdvd.mpr h0))]
  refine ⟨hyes, hno, ?_⟩
  intro r hr
  by_cases hv : 4 ∣ vector
  · rw [hyes hv] at hr
    simp only [Asserted.returned.injEq] at hr
    subst hr
    exact ⟨rfl, hv⟩
  · rw [hno hv] at hr
    exact absurd hr (by simp)

/-! ## Dispatch -/

theorem dispatch_of_opcode (k : mscp_server_hpp) (self : mscp_server) (port : uda_c)
    (message : Message) (h : Handler) (hop : message.Message.Word3.Opcode = h.opcode k) :
    ∃ h1 : Handler, message.Message.Word3.Opcode = h1.opcode k ∧
      dispatch k self port message = some (h1.call k self port message) := by
  unfold dispatch
  simp only
  split_ifs with c1 c2 c3 c4 c5 c6
  · exact ⟨Handler.GetUnitStatus, c1, rfl⟩
  · exact ⟨Handler.Online, c2, rfl⟩
  · exact ⟨Handler.SetControllerCharacteristics, c3, rfl⟩
  · exact ⟨Handler.SetUnitCharacteristics, c4, rfl⟩
  · exact ⟨Handler.Read, c5, rfl⟩
  · exact ⟨Handler.Write, c6, rfl⟩
  · cases h <;> simp only [Handler.opcode] at hop <;> contradiction

theorem dispatch_none (k : mscp_server_hpp) (self : mscp_server) (port : uda_c)
    (message : Message) (hop : ∀ h : Handler, message.Message.Word3.Opcode ≠ h.opcode k) :
    dispatch k self port message = none := by
  have h1 : message.Message.Word3.Opcode ≠ k.GET_UNIT_STATUS := hop Handler.GetUnitStatus
  have h2 : message.Message.Word3.Opcode ≠ k.ONLINE := hop Handler.Online
  have h3 : message.Message.Word3.Opcode ≠ k.SET_CONTROLLER_CHARACTERISTICS :=
    hop Handler.SetControllerCharacteristics
  have h4 : message.Message.Word3.Opcode ≠ k.SET_UNIT_CHARACTERISTICS :=
    hop Handler.SetUnitCharacteristics
  have h5 : message.Message.Word3.Opcode ≠ k.READ := hop Handler.Read
  have h6 : message.Message.Word3.Opcode ≠ k.WRITE := hop Handler.Write
  unfold dispatch
  simp only
  rw [if_neg h1, if_neg h2, if_neg h3, if_neg h4, if_neg h5, if_neg h6]

theorem Handler.call_frame (k : mscp_server_hpp) (self : mscp_server) (port : uda_c)
    (message : Message) (h : Handler) :
    (h.call k self port message).message.MessageType = message.MessageType ∧
    (h.call k self port message).message.Message.Word3 = message.Message.Word3 ∧
    (h.call k self port message).port.responses = port.responses ∧
    (h.call k self port message).port.posts = port.posts ∧
    (h.call k self port message).port.PostResponse = port.PostResponse ∧
    (h.call k self port message).server._credits = self._credits := by
  cases h
  · unfold Handler.call mscp_server.GetUnitStatus; simp only
    split_ifs <;> exact ⟨rfl, rfl, rfl, rfl, rfl, rfl⟩
  · unfold Handler.call mscp_server.Online; simp only
    split_ifs <;> exact ⟨rfl, rfl, rfl, rfl, rfl, rfl⟩
  · unfold Handler.call mscp_server.SetControllerCharacteristics; simp only
    split_ifs <;> exact ⟨rfl, rfl, rfl, rfl, rfl, rfl⟩
  · unfold Handler.call mscp_server.SetUnitCharacteristics; simp only
    split_ifs <;> exact ⟨rfl, rfl, rfl, rfl, rfl, rfl⟩
  · unfold Handler.call mscp_server.Read; simp only
    split_ifs <;> exact ⟨rfl, rfl, rfl, rfl, rfl, rfl⟩
  · unfold Handler.call mscp_server.Write; simp only
    split_ifs <;> exact ⟨rfl, rfl, rfl, rfl, rfl, rfl⟩

theorem status_code_of_STATUS (code sub flags : Nat) (h : code < 32) :
    GET_STATUS (STATUS (code + (sub <<< 8)) flags) &&& 0x1f = code ∧
    primaryCode (STATUS (code + (sub <<< 8)) flags) = code := by
  have hand : ∀ x : Nat, x &&& 0x1f = x % 32 := fun x => Nat.and_pow_two_sub_one_eq_mod x 5
  rw [hand]
  simp only [GET_STATUS, primaryCode, STATUS, Nat.shiftLeft_eq]
  omega

theorem Handler.call_status (k : mscp_server_hpp) (self : mscp_server) (port : uda_c)
    (message : Message) (h : Handler)
    (hS : k.SUCCESS < 32) (hI : k.INVALID_COMMAND < 32) (hO : k.UNIT_OFFLINE < 32)
    (hA : k.UNIT_AVAILABLE < 32) :
    GET_STATUS (h.call k self port message).status &&& 0x1f =
      primaryCode (h.call k self port message).status := by
  have key : ∀ code flags, code < 32 →
      GET_STATUS (STATUS code flags) &&& 0x1f = primaryCode (STATUS code flags) := by
    intro code flags hc
    have := status_code_of_STATUS code 0 flags hc
    simp only [Nat.zero_shiftLeft, Nat.add_zero] at this
    rw [this.1, this.2]
  have key2 : ∀ code sub flags, code < 32 →
      GET_STATUS (STATUS (code + (sub <<< 8)) flags) &&& 0x1f =
        primaryCode (STATUS (code + (sub <<< 8)) flags) := by
    intro code sub flags hc
    have := status_code_of_STATUS code sub flags hc
    rw [this.1, this.2]
  cases h
  · unfold Handler.call mscp_server.GetUnitStatus; simp only
    split_ifs <;> first | exact key _ _ hS | exact key _ _ hO | exact key _ _ hA
  · unfold Handler.call mscp_server.Online; simp only
    split_ifs <;> first | exact key _ _ hS | exact key _ _ hO
  · unfold Handler.call mscp_server.SetControllerCharacteristics; simp only
    split_ifs <;> first | exact key _ _ hS | exact key _ _ hI
  · unfold Handler.call mscp_server.SetUnitCharacteristics; simp only
    split_ifs <;> first | exact key _ _ hS | exact key _ _ hO
  · unfold Handler.call mscp_server.Read; simp only
    split_ifs <;> first | exact key _ _ hS | exact key _ _ hO | exact key2 _ _ _ hI
  · unfold Handler.call mscp_server.Write; simp only
    split_ifs <;> first | exact key _ _ hS | exact key _ _ hO | exact key2 _ _ _ hI

theorem lor_land_self (a b : Nat) : (a ||| b) &&& b = b := by
  apply Nat.eq_of_testBit_eq
  intro i
  simp only [Nat.testBit_and, Nat.testBit_or]
  cases a.testBit i <;> cases b.testBit i <;> rfl

theorem setEndcode_frame (k : mscp_server_hpp) (message : Message) (cmdStatus : Nat) :
    (setEndcode k message cmdStatus).MessageType = message.MessageType ∧
    (setEndcode k message cmdStatus).Credits = message.Credits ∧
    (setEndcode k message cmdStatus).Message.Word3.Endcode &&& k.END = k.END := by
  unfold setEndcode
  split_ifs
  · exact ⟨rfl, rfl, Nat.and_self _⟩
  · exact ⟨rfl, rfl, lor_land_self _ _⟩

theorem setEndcode_endcode (k : mscp_server_hpp) (message : Message) (cmdStatus : Nat) :
    (GET_STATUS cmdStatus &&& 0x1f = k.INVALID_COMMAND →
      (setEndcode k message cmdStatus).Message.Word3.Endcode = k.END) ∧
    (GET_STATUS cmdStatus &&& 0x1f ≠ k.INVALID_COMMAND →
      (setEndcode k message cmdStatus).Message.Word3.Endcode =
        message.Message.Word3.Endcode ||| k.END) := by
  unfold setEndcode
  simp only
  constructor
  · intro h; rw [if_pos h]
  · intro h; rw [if_neg h]

theorem grantCredits_word3 (k : mscp_server_hpp) (self : mscp_server) (message : Message) :
    (grantCredits k self message).message.Message = message.Message := by
  unfold grantCredits
  split_ifs <;> rfl

theorem grantCredits_sequential (k : mscp_server_hpp) (self : mscp_server) (message : Message)
    (hseq : message.MessageType = k.Sequential)
    (hend : message.Message.Word3.Endcode &&& k.END ≠ 0) :
    grantCredits k self message =
      { server :=
          { self with
            _credits := ((self._credits + 2 ^ 32 - min self._credits (k.MAX_CREDITS % 2 ^ 32))
              % 2 ^ 32) }
        message := { message with Credits := (min self._credits (k.MAX_CREDITS % 2 ^ 32) + 1) % 16 }
        grantedCredits := min self._credits (k.MAX_CREDITS % 2 ^ 32) } := by
  unfold grantCredits
  rw [if_pos ⟨hseq, hend⟩]

theorem postResponseLoop_spec (message : Message) (n : Nat) (port : uda_c) :
    (postResponseLoop port message n).PostResponse = port.PostResponse ∧
    (postResponseLoop port message n).dma = port.dma ∧
    ((∃ j, j < n ∧ port.PostResponse (port.posts + j) = true ∧
        (∀ i, i < j → port.PostResponse (port.posts + i) = false) ∧
        (postResponseLoop port message n).posts = port.posts + j + 1 ∧
        (postResponseLoop port message n).responses = port.responses ++ [message]) ∨
      ((∀ i, i < n → port.PostResponse (port.posts + i) = false) ∧
        (postResponseLoop port message n).posts = port.posts + n ∧
        (postResponseLoop port message n).responses = port.responses)) := by
  induction n generalizing port with
  | zero =>
    refine ⟨rfl, rfl, Or.inr ⟨?_, rfl, rfl⟩⟩
    intro i hi
    omega
  | succ n ih =>
    by_cases h0 : port.PostResponse port.posts = true
    · have e : postResponseLoop port message (n + 1) =
          { port with posts := port.posts + 1, responses := port.responses ++ [message] } := by
        rw [postResponseLoop, if_pos h0]
      rw [e]
      refine ⟨rfl, rfl, Or.inl ⟨0, by omega, h0, ?_, rfl, rfl⟩⟩
      intro i hi
      omega
    · have h0f : port.PostResponse port.posts = false := by simpa using h0
      have e : postResponseLoop port message (n + 1) =
          postResponseLoop { port with posts := port.posts + 1 } message n := by
        rw [postResponseLoop, if_neg h0]
      rw [e]
      obtain ⟨hp, hd, hrest⟩ := ih { port with posts := port.posts + 1 }
      refine ⟨hp, hd, ?_⟩
      rcases hrest with ⟨j, hj, hjt, hjf, hposts, hresp⟩ | ⟨hall, hposts, hresp⟩
      · refine Or.inl ⟨j + 1, by omega, ?_, ?_, ?_, hresp⟩
        · simpa [Nat.add_assoc, Nat.add_comm 1 j] using hjt
        · intro i hi
          cases i with
          | zero => simpa using h0f
          | succ i =>
            have := hjf i (by omega)
            simpa [Nat.add_assoc, Nat.add_comm 1 i] using this
        · simp only at hposts
          omega
      · refine Or.inr ⟨?_, ?_, hresp⟩
        · intro i hi
          cases i with
          | zero => simpa using h0f
          | succ i =>
            have := hall i (by omega)
            simpa [Nat.add_assoc, Nat.add_comm 1 i] using this
        · simp only at hposts
          omega

theorem pollMessage_of_dispatch (k : mscp_server_hpp) (self : mscp_server) (port : uda_c)
    (message : Message) (hd : Handled) (h : dispatch k self port message = some hd) :
    pollMessage k self port message = some
      { server := (grantCredits k hd.server (setEndcode k hd.message hd.status)).server
        port := postResponseLoop hd.port
          (grantCredits k hd.server (setEndcode k hd.message hd.status)).message 10
        message := (grantCredits k hd.server (setEndcode k hd.message hd.status)).message
        grantedCredits :=
          (grantCredits k hd.server (setEndcode k hd.message hd.status)).grantedCredits } := by
  unfold pollMessage
  rw [h]

/-! ## The engine after the handler -/

/-- C12: for every sequential-type message with one of the six opcodes, the engine computes
grant = min(_credits, MAX_CREDITS), leaves _credits smaller by exactly grant, and the Credits
field of the response it hands to PostResponse holds exactly grant + 1, which fits the four
bits of the field. MAX_CREDITS is a constant of the absent header; the comment in Poll gives
it as 14, which is what the theorem assumes of it. -/
theorem C12_sequential_grant (k : mscp_server_hpp) (self : mscp_server) (port : uda_c)
    (message : Message) (h : Handler)
    (hop : message.Message.Word3.Opcode = h.opcode k)
    (hseq : message.MessageType = k.Sequential)
    (hend : k.END ≠ 0) (hmax : k.MAX_CREDITS ≤ 14) (hbal : self._credits < 2 ^ 32) :
    ∃ r, pollMessage k self port message = some r ∧
      r.grantedCredits = min self._credits k.MAX_CREDITS ∧
      r.server._credits + r.grantedCredits = self._credits ∧
      r.message.Credits = r.grantedCredits + 1 ∧ r.message.Credits < 16 ∧
      (r.port.responses = port.responses ++ [r.message] ∨ r.port.responses = port.responses) := by
  obtain ⟨h1, -, hd⟩ := dispatch_of_opcode k self port message h hop
  obtain ⟨ftype, -, fresp, -, -, fcred⟩ := Handler.call_frame k self port message h1
  have hE := setEndcode_frame k (h1.call k self port message).message
    (h1.call k self port message).status
  have hg := grantCredits_sequential k (h1.call k self port message).server
    (setEndcode k (h1.call k self port message).message (h1.call k self port message).status)
    (by rw [hE.1, ftype, hseq]) (by rw [hE.2.2]; exact hend)
  refine ⟨_, pollMessage_of_dispatch k self port message _ hd, ?_⟩
  have hM : k.MAX_CREDITS % 2 ^ 32 = k.MAX_CREDITS := Nat.mod_eq_of_lt (by omega)
  have hmin : min self._credits k.MAX_CREDITS ≤ self._credits := Nat.min_le_left _ _
  have hmin2 : min self._credits k.MAX_CREDITS ≤ k.MAX_CREDITS := Nat.min_le_right _ _
  simp only [hg, fcred, hM]
  refine ⟨trivial, by omega, by omega, by omega, ?_⟩
  obtain ⟨-, -, hpost⟩ := postResponseLoop_spec
    { (setEndcode k (h1.call k self port message).message (h1.call k self port message).status)
      with Credits := (min self._credits k.MAX_CREDITS + 1) % 16 } 10
    (h1.call k self port message).port
  rw [fresp] at hpost
  rcases hpost with ⟨j, -, -, -, -, hr⟩ | ⟨-, -, hr⟩
  · exact Or.inl hr
  · exact Or.inr hr

/-- C13: for a command with one of the six opcodes, op, the end code of the response is
exactly END when the primary code of the status the handler returned is INVALID_COMMAND, and
op OR END for every other status. The four status codes the handlers use are constants of the
absent header, assumed to fit the five bits that Poll tests. -/
theorem C13_end_code (k : mscp_server_hpp) (self : mscp_server) (port : uda_c)
    (message : Message) (h : Handler)
    (hop : message.Message.Word3.Opcode = h.opcode k)
    (hS : k.SUCCESS < 32) (hI : k.INVALID_COMMAND < 32) (hO : k.UNIT_OFFLINE < 32)
    (hA : k.UNIT_AVAILABLE < 32) :
    ∃ hd r, dispatch k self port message = some hd ∧ pollMessage k self port message = some r ∧
      (primaryCode hd.status = k.INVALID_COMMAND → r.message.Message.Word3.Endcode = k.END) ∧
      (primaryCode hd.status ≠ k.INVALID_COMMAND →
        r.message.Message.Word3.Endcode = message.Message.Word3.Opcode ||| k.END) := by
  obtain ⟨h1, -, hd⟩ := dispatch_of_opcode k self port message h hop
  obtain ⟨-, fword, -, -, -, -⟩ := Handler.call_frame k self port message h1
  have hst := Handler.call_status k self port message h1 hS hI hO hA
  have hE := setEndcode_endcode k (h1.call k self port message).message
    (h1.call k self port message).status
  rw [hst, fword] at hE
  refine ⟨_, _, hd, pollMessage_of_dispatch k self port message _ hd, ?_, ?_⟩
  · intro hp
    simp only [grantCredits_word3]
    exact hE.1 hp
  · intro hp
    simp only [grantCredits_word3]
    exact hE.2 hp

/-- C14: the case labels being pairwise distinct, a message whose opcode is the label of a
handler is dispatched to that handler and to no other: the dispatch leaves what the call of
that one handler leaves, and no other handler has this opcode. For every opcode that is none
of the six labels the dispatch is FATAL: the iteration has no result, so no response is posted
and server and port stay as they were. -/
theorem C14_one_handler_or_fatal (k : mscp_server_hpp) (self : mscp_server) (port : uda_c)
    (message : Message) (hlabels : Function.Injective (Handler.opcode k)) :
    (∀ h : Handler, message.Message.Word3.Opcode = h.opcode k →
      dispatch k self port message = some (h.call k self port message) ∧
      ∀ h1 : Handler, message.Message.Word3.Opcode = h1.opcode k → h1 = h) ∧
    ((∀ h : Handler, message.Message.Word3.Opcode ≠ h.opcode k) →
      dispatch k self port message = none ∧ pollMessage k self port message = none ∧
      ∀ granted : Nat,
        Ledger.step k ⟨self, port, granted⟩ (Event.command message) = ⟨self, port, granted⟩) := by
  constructor
  · intro h hop
    obtain ⟨h1, hop1, hd⟩ := dispatch_of_opcode k self port message h hop
    have e : h1 = h := hlabels (by rw [← hop1, hop])
    subst e
    exact ⟨hd, fun h2 hop2 => hlabels (by rw [← hop2, hop])⟩
  · intro hop
    have hd := dispatch_none k self port message hop
    have hp : pollMessage k self port message = none := by
      unfold pollMessage
      rw [hd]
    refine ⟨hd, hp, ?_⟩
    intro granted
    simp only [Ledger.step, hp]

/-- C17: for every message with one of the six opcodes and every behaviour of PostResponse,
the iteration ends with at most 10 calls of PostResponse. Either the first call that succeeds
is call number j + 1 <= 10, and then exactly j + 1 calls were made and the response is on the
response list; or all 10 calls fail, and then 10 calls were made, the response is not on the
list, and the iteration still ends, so the engine goes on to the next command. -/
theorem C17_post_response_retries (k : mscp_server_hpp) (self : mscp_server) (port : uda_c)
    (message : Message) (h : Handler) (hop : message.Message.Word3.Opcode = h.opcode k) :
    ∃ r, pollMessage k self port message = some r ∧
      r.port.posts ≤ port.posts + 10 ∧
      ((∃ j, j < 10 ∧ port.PostResponse (port.posts + j) = true ∧
          (∀ i, i < j → port.PostResponse (port.posts + i) = false) ∧
          r.port.posts = port.posts + j + 1 ∧
          r.port.responses = port.responses ++ [r.message]) ∨
        ((∀ i, i < 10 → port.PostResponse (port.posts + i) = false) ∧
          r.port.posts = port.posts + 10 ∧
          r.port.responses = port.responses)) := by
  obtain ⟨h1, -, hd⟩ := dispatch_of_opcode k self port message h hop
  obtain ⟨-, -, fresp, fposts, fpost, -⟩ := Handler.call_frame k self port message h1
  refine ⟨_, pollMessage_of_dispatch k self port message _ hd, ?_⟩
  obtain ⟨-, -, hpost⟩ := postResponseLoop_spec
    (grantCredits k (h1.call k self port message).server
      (setEndcode k (h1.call k self port message).message
        (h1.call k self port message).status)).message 10
    (h1.call k self port message).port
  rw [fresp, fposts, fpost] at hpost
  simp only
  rcases hpost with ⟨j, hj, hjt, hjf, hposts, hr⟩ | ⟨hall, hposts, hr⟩
  · exact ⟨by omega, Or.inl ⟨j, hj, hjt, hjf, hposts, hr⟩⟩
  · exact ⟨by omega, Or.inr ⟨hall, hposts, hr⟩⟩

/-! ## Block numbers -/

/-- C15 as stated fails: a Read and a Write of 512 bytes at LBN 32768 = imageSize / 512 both
pass validation and reach their data transfer (each makes its DMA call), yet 32768 is not below
imageSize / 512. -/
theorem C15_last_block_is_transferred :
    loadLE (GetParameterPointer (transferCommand 33 32768 512)) 16 4 = 32768 ∧
    loadLE (GetParameterPointer (transferCommand 34 32768 512)) 16 4 = 32768 ∧
    ((mscp_server.ctor mscpValues).Read mscpValues idlePort (transferCommand 33 32768 512) 0
      0).port.dma.length = idlePort.dma.length + 1 ∧
    ((mscp_server.ctor mscpValues).Write mscpValues idlePort (transferCommand 34 32768 512) 0
      0).port.dma.length = idlePort.dma.length + 1 ∧
    ¬ (32768 < _diskBufferSize / 512) := by
  decide

/-- C15, amended: every Read that reaches its data transfer, and every Write that reaches its
data transfer with at least one byte to transfer, has LBN < (imageSize + 512) / 512, which is
imageSize / 512 + 1: block numbers stay within the blocks of the image and the one block
allocated after it. -/
theorem C15_lbn_within_allocated_blocks (k : mscp_server_hpp) (self : mscp_server) (port : uda_c)
    (message : Message) (unitNumber modifiers : Nat) :
    ((self.Read k port message unitNumber modifiers).port.dma ≠ port.dma →
      loadLE (GetParameterPointer message) 16 4 < (_diskBufferSize + 512) / 512) ∧
    ((self.Write k port message unitNumber modifiers).port.dma ≠ port.dma →
      0 < loadLE (GetParameterPointer message) 0 4 →
      loadLE (GetParameterPointer message) 16 4 < (_diskBufferSize + 512) / 512) ∧
    (_diskBufferSize + 512) / 512 = _diskBufferSize / 512 + 1 := by
  refine ⟨?_, ?_, by decide⟩
  · intro hdma
    by_contra hcon
    apply hdma
    unfold mscp_server.Read
    simp only [GetParameterPointer] at hcon ⊢
    split_ifs <;> first | rfl | omega
  · intro hdma hcount
    by_contra hcon
    apply hdma
    unfold mscp_server.Write
    simp only [GetParameterPointer] at hcon hcount ⊢
    split_ifs with c1 c2 c3
    · rfl
    · rfl
    · rfl
    · exfalso
      simp only [_diskBufferSize] at *
      omega

/-! ## The later theorems at concrete inputs -/

/-- C11 at a concrete input: Reset of a server that is draining with five credits left, woken
once in Run and then in Wait. -/
theorem C11_reset_restores_credits_witness :
    mscpValues.INIT_CREDITS < 2 ^ 32 ∧
    runningServer.Reset mscpValues [PollingState.Run, PollingState.Wait] =
      some { runningServer with _pollState := PollingState.Wait, _credits := 32 } ∧
    (({ runningServer with _pollState := PollingState.Wait, _credits := 32 } :
      mscp_server)._credits = mscpValues.INIT_CREDITS) :=
  ⟨by decide, rfl,
    (C11_reset_restores_credits mscpValues runningServer [PollingState.Run, PollingState.Wait]
      (by decide)).2 _ rfl⟩

/-- C12 at a concrete input: a sequential Online command on a server with five credits left. -/
theorem C12_sequential_grant_witness :
    ((blankCommand 0 9).Message.Word3.Opcode = Handler.Online.opcode mscpValues ∧
      (blankCommand 0 9).MessageType = mscpValues.Sequential ∧
      mscpValues.END ≠ 0 ∧ mscpValues.MAX_CREDITS ≤ 14 ∧ runningServer._credits < 2 ^ 32) ∧
    ∃ r, pollMessage mscpValues runningServer idlePort (blankCommand 0 9) = some r ∧
      r.grantedCredits = min runningServer._credits mscpValues.MAX_CREDITS ∧
      r.server._credits + r.grantedCredits = runningServer._credits ∧
      r.message.Credits = r.grantedCredits + 1 ∧ r.message.Credits < 16 ∧
      (r.port.responses = idlePort.responses ++ [r.message] ∨
        r.port.responses = idlePort.responses) :=
  ⟨by decide,
    C12_sequential_grant mscpValues runningServer idlePort (blankCommand 0 9) Handler.Online
      (by decide) (by decide) (by decide) (by decide) (by decide)⟩

/-- C13 at a concrete input: a Read for unit 0 at a block beyond the buffer. -/
theorem C13_end_code_witness :
    ((transferCommand 33 40000 512).Message.Word3.Opcode = Handler.Read.opcode mscpValues ∧
      mscpValues.SUCCESS < 32 ∧ mscpValues.INVALID_COMMAND < 32 ∧
      mscpValues.UNIT_OFFLINE < 32 ∧ mscpValues.UNIT_AVAILABLE < 32) ∧
    ∃ hd r, dispatch mscpValues runningServer idlePort (transferCommand 33 40000 512) = some hd ∧
      pollMessage mscpValues runningServer idlePort (transferCommand 33 40000 512) = some r ∧
      (primaryCode hd.status = mscpValues.INVALID_COMMAND →
        r.message.Message.Word3.Endcode = mscpValues.END) ∧
      (primaryCode hd.status ≠ mscpValues.INVALID_COMMAND →
        r.message.Message.Word3.Endcode =
          (transferCommand 33 40000 512).Message.Word3.Opcode ||| mscpValues.END) :=
  ⟨by decide,
    C13_end_code mscpValues runningServer idlePort (transferCommand 33 40000 512) Handler.Read
      (by decide) (by decide) (by decide) (by decide) (by decide)⟩

/-- C14 at a concrete input: the six opcodes of the MSCP protocol are pairwise distinct. -/
theorem C14_one_handler_or_fatal_witness :
    Function.Injective (Handler.opcode mscpValues) ∧
    (∀ h : Handler, (blankCommand 0 9).Message.Word3.Opcode = h.opcode mscpValues →
      dispatch mscpValues runningServer idlePort (blankCommand 0 9) =
        some (h.call mscpValues runningServer idlePort (blankCommand 0 9)) ∧
      ∀ h1 : Handler, (blankCommand 0 9).Message.Word3.Opcode = h1.opcode mscpValues → h1 = h) ∧
    ((∀ h : Handler, (blankCommand 0 9).Message.Word3.Opcode ≠ h.opcode mscpValues) →
      dispatch mscpValues runningServer idlePort (blankCommand 0 9) = none ∧
      pollMessage mscpValues runningServer idlePort (blankCommand 0 9) = none ∧
      ∀ granted : Nat,
        Ledger.step mscpValues ⟨runningServer, idlePort, granted⟩
          (Event.command (blankCommand 0 9)) = ⟨runningServer, idlePort, granted⟩) :=
  ⟨by intro a b hab; cases a <;> cases b <;> first | rfl | exact absurd hab (by decide),
    C14_one_handler_or_fatal mscpValues runningServer idlePort (blankCommand 0 9)
      (by intro a b hab; cases a <;> cases b <;> first | rfl | exact absurd hab (by decide))⟩

/-- C15 (amended) at a concrete input: a Read and a Write of 512 bytes at LBN 32768. -/
theorem C15_lbn_within_allocated_blocks_witness :
    ((mscp_server.ctor mscpValues).Read mscpValues idlePort (transferCommand 33 32768 512) 0
      0).port.dma ≠ idlePort.dma ∧
    ((mscp_server.ctor mscpValues).Write mscpValues idlePort (transferCommand 34 32768 512) 0
      0).port.dma ≠ idlePort.dma ∧
    0 < loadLE (GetParameterPointer (transferCommand 34 32768 512)) 0 4 ∧
    loadLE (GetParameterPointer (transferCommand 33 32768 512)) 16 4 <
      (_diskBufferSize + 512) / 512 ∧
    loadLE (GetParameterPointer (transferCommand 34 32768 512)) 16 4 <
      (_diskBufferSize + 512) / 512 :=
  ⟨by decide, by decide, by decide,
    (C15_lbn_within_allocated_blocks mscpValues (mscp_server.ctor mscpValues) idlePort
      (transferCommand 33 32768 512) 0 0).1 (by decide),
    (C15_lbn_within_allocated_blocks mscpValues (mscp_server.ctor mscpValues) idlePort
      (transferCommand 34 32768 512) 0 0).2.1 (by decide) (by decide)⟩

/-- C16 at a concrete input: Reset of a freshly constructed server, which is in Wait. -/
theorem C16_reset_while_waiting_witness :
    ((mscp_server.ctor mscpValues)._pollState = PollingState.Wait ∧
      mscpValues.INIT_CREDITS < 2 ^ 32) ∧
    (mscp_server.ctor mscpValues).ResetWaitCalls [PollingState.Run] = 0 ∧
    ∃ s, (mscp_server.ctor mscpValues).Reset mscpValues [PollingState.Run] = some s ∧
      (mscp_server.ctor mscpValues).Reset mscpValues [] = some s ∧
      s._pollState = PollingState.Wait ∧ s._credits = mscpValues.INIT_CREDITS ∧
      s = { mscp_server.ctor mscpValues with _credits := mscpValues.INIT_CREDITS } :=
  ⟨by decide,
    C16_reset_while_waiting mscpValues (mscp_server.ctor mscpValues) [PollingState.Run]
      (by decide) (by decide)⟩

/-- C17 at a concrete input: an Online command on a port whose response ring is full for the
first three calls. -/
theorem C17_post_response_retries_witness :
    (blankCommand 0 9).Message.Word3.Opcode = Handler.Online.opcode mscpValues ∧
    ∃ r, pollMessage mscpValues runningServer busyPort (blankCommand 0 9) = some r ∧
      r.port.posts ≤ busyPort.posts + 10 ∧
      ((∃ j, j < 10 ∧ busyPort.PostResponse (busyPort.posts + j) = true ∧
          (∀ i, i < j → busyPort.PostResponse (busyPort.posts + i) = false) ∧
          r.port.posts = busyPort.posts + j + 1 ∧
          r.port.responses = busyPort.responses ++ [r.message]) ∨
        ((∀ i, i < 10 → busyPort.PostResponse (busyPort.posts + i) = false) ∧
          r.port.posts = busyPort.posts + 10 ∧
          r.port.responses = busyPort.responses)) :=
  ⟨by decide,
    C17_post_response_retries mscpValues runningServer busyPort (blankCommand 0 9)
      Handler.Online (by decide)⟩

/-- C18 at concrete inputs: with 32 slots, slot 0 and slot 32 fail the assertion, and slot 5,
already used by device 7, is stored in a request of device 1 with a warning. -/
theorem C18_set_priority_slot_witness :
    ((0 = 0 ∨ 0 ≥ 32) ∧ (32 = 0 ∨ 32 ≥ 32) ∧ (0 < 5 ∧ 5 < 32)) ∧
    (priority_request_c.ctor (some 1)).set_priority_slot 32 slotFiveTaken 0 =
      Asserted.failed ⟨priority_request_c.ctor (some 1), false⟩ ∧
    (priority_request_c.ctor (some 1)).set_priority_slot 32 slotFiveTaken 32 =
      Asserted.failed ⟨priority_request_c.ctor (some 1), false⟩ ∧
    ∃ warned, (priority_request_c.ctor (some 1)).set_priority_slot 32 slotFiveTaken 5 =
        Asserted.returned ⟨{ priority_request_c.ctor (some 1) with slot := 5 }, warned⟩ ∧
      (warned = true ↔ ∃ other, slotFiveTaken 5 = some other ∧
        some other ≠ (priority_request_c.ctor (some 1)).device) :=
  ⟨by decide,
    (C18_set_priority_slot 32 slotFiveTaken (priority_request_c.ctor (some 1)) 0).1 (by decide),
    (C18_set_priority_slot 32 slotFiveTaken (priority_request_c.ctor (some 1)) 32).1 (by decide),
    (C18_set_priority_slot 32 slotFiveTaken (priority_request_c.ctor (some 1)) 5).2 (by decide)⟩

/-- C19 at concrete inputs: level 5 is stored as level_index 1, level 3 fails the assertion. -/
theorem C19_set_level_witness :
    ((5 = 4 ∨ 5 = 5 ∨ 5 = 6 ∨ 5 = 7) ∧ ¬ (3 = 4 ∨ 3 = 5 ∨ 3 = 6 ∨ 3 = 7)) ∧
    ((intr_request_c.ctor (some 1)).set_level 5 =
        Asserted.returned { intr_request_c.ctor (some 1) with level_index := 5 - 4 } ∧
      5 - 4 ≤ 3) ∧
    (intr_request_c.ctor (some 1)).set_level 3 = Asserted.failed (intr_request_c.ctor (some 1)) :=
  ⟨by decide,
    (C19_set_level (intr_request_c.ctor (some 1)) 5).1 (by decide),
    (C19_set_level (intr_request_c.ctor (some 1)) 3).2 (by decide)⟩

/-- C20 at concrete inputs: vector 0o270 is stored, vector 0o272 fails the assertion. -/
theorem C20_set_vector_witness :
    (4 ∣ 0o270 ∧ ¬ 4 ∣ 0o272) ∧
    (intr_request_c.ctor (some 1)).set_vector 0o270 =
      Asserted.returned { intr_request_c.ctor (some 1) with vector := 0o270 } ∧
    (intr_request_c.ctor (some 1)).set_vector 0o272 =
      Asserted.failed (intr_request_c.ctor (some 1)) ∧
    (({ intr_request_c.ctor (some 1) with vector := 0o270 } : intr_request_c).vector = 0o270 ∧
      4 ∣ ({ intr_request_c.ctor (some 1) with vector := 0o270 } : intr_request_c).vector) :=
  ⟨by decide,
    (C20_set_vector (intr_request_c.ctor (some 1)) 0o270).1 (by decide),
    (C20_set_vector (intr_request_c.ctor (some 1)) 0o272).2.1 (by decide),
    (C20_set_vector (intr_request_c.ctor (some 1)) 0o270).2.2 _
      ((C20_set_vector (intr_request_c.ctor (some 1)) 0o270).1 (by decide))⟩

/-! ## Request lists -/

theorem findErase_append_fresh (v : List Nat) (x : Nat) (h : x ∉ v) :
    findErase (v ++ [x]) x = some v := by
  unfold findErase
  rw [if_pos (by simp), List.erase_append_right _ h]
  simp

theorem findErase_nodup (v : List Nat) (x : Nat) (hmem : x ∈ v) (hnodup : v.Nodup) :
    ∃ w, findErase v x = some w ∧ x ∉ w ∧ w.Nodup ∧ ∀ y, y ≠ x → (y ∈ w ↔ y ∈ v) := by
  refine ⟨v.erase x, by unfold findErase; rw [if_pos hmem], ?_, hnodup.erase x, ?_⟩
  · intro hx
    exact ((hnodup.mem_erase_iff).mp hx).1 rfl
  · intro y hy
    rw [hnodup.mem_erase_iff]
    exact ⟨fun h => h.2, fun h => ⟨hy, h⟩⟩

/-- C21: for a request object at an address not yet in the device's list, the constructor of
a DMA request (of an interrupt request) appends the request to the DMA (interrupt) list of its
device, and destroying it right after gives back the devices exactly as they were before the
construction. Whenever a registered request of a list without duplicates is destroyed, it is
no longer in the list, every other request still is, and the list stays without duplicates. -/
theorem C21_request_registration (PRIORITY_LEVEL_INDEX_NPR this d : Nat) (devices : Devices)
    (hdma : this ∉ (devices d).dma_requests) (hintr : this ∉ (devices d).intr_requests) :
    (((dma_request_c.construct PRIORITY_LEVEL_INDEX_NPR this (some d) devices).2 d).dma_requests =
        (devices d).dma_requests ++ [this] ∧
      (dma_request_c.construct PRIORITY_LEVEL_INDEX_NPR this (some d) devices).1.destroy this
        (dma_request_c.construct PRIORITY_LEVEL_INDEX_NPR this (some d) devices).2 =
        some devices) ∧
    (((intr_request_c.construct this (some d) devices).2 d).intr_requests =
        (devices d).intr_requests ++ [this] ∧
      (intr_request_c.construct this (some d) devices).1.destroy this
        (intr_request_c.construct this (some d) devices).2 = some devices) ∧
    (∀ (r : dma_request_c) (ds : Devices), r.device = some d →
      this ∈ (ds d).dma_requests → (ds d).dma_requests.Nodup →
      ∃ ds1, r.destroy this ds = some ds1 ∧ this ∉ (ds1 d).dma_requests ∧
        (ds1 d).dma_requests.Nodup ∧
        ∀ y, y ≠ this → (y ∈ (ds1 d).dma_requests ↔ y ∈ (ds d).dma_requests)) ∧
    (∀ (r : intr_request_c) (ds : Devices), r.device = some d →
      this ∈ (ds d).intr_requests → (ds d).intr_requests.Nodup →
      ∃ ds1, r.destroy this ds = some ds1 ∧ this ∉ (ds1 d).intr_requests ∧
        (ds1 d).intr_requests.Nodup ∧
        ∀ y, y ≠ this → (y ∈ (ds1 d).intr_requests ↔ y ∈ (ds d).intr_requests)) := by
  refine ⟨⟨?_, ?_⟩, ⟨?_, ?_⟩, ?_, ?_⟩
  · simp [dma_request_c.construct]
  · simp only [dma_request_c.construct, dma_request_c.destroy, priority_request_c.ctor,
      Function.update_same, findErase_append_fresh _ _ hdma, Function.update_idem]
    exact congrArg some (Function.update_eq_self d devices)
  · simp [intr_request_c.construct]
  · simp only [intr_request_c.construct, intr_request_c.destroy, intr_request_c.ctor,
      priority_request_c.ctor, Function.update_same, findErase_append_fresh _ _ hintr,
      Function.update_idem]
    exact congrArg some (Function.update_eq_self d devices)
  · intro r ds hdev hmem hnodup
    obtain ⟨w, hw, hnot, hwnodup, hothers⟩ := findErase_nodup _ _ hmem hnodup
    refine ⟨Function.update ds d { ds d with dma_requests := w }, ?_, ?_, ?_, ?_⟩
    · simp only [dma_request_c.destroy, hdev, hw]
    · simpa using hnot
    · simpa using hwnodup
    · simpa using hothers
  · intro r ds hdev hmem hnodup
    obtain ⟨w, hw, hnot, hwnodup, hothers⟩ := findErase_nodup _ _ hmem hnodup
    refine ⟨Function.update ds d { ds d with intr_requests := w }, ?_, ?_, ?_, ?_⟩
    · simp only [intr_request_c.destroy, hdev, hw]
    · simpa using hnot
    · simpa using hwnodup
    · simpa using hothers

/-! ## Stopping the worker -/

/-- C22: worker_stop of a device whose worker is already terminated returns at once: no step
is made and the flags are as they were. Otherwise it sets worker_terminate and waits 100 ms,
in this order, the worker running meanwhile on the flags with worker_terminate set; a
pthread_cancel is among the steps exactly when the worker has not set worker_terminated by the
end of the wait; when that cancellation request is accepted, or none is needed, the steps end
with pthread_join. A refused pthread_cancel and a failed pthread_join end in FATAL, with the
flags as the worker left them; otherwise the joined thread has run its cleanup handler. -/
theorem C22_worker_stop (self : device_c) (env : WorkerEnvironment) :
    (self.worker_terminated = true → self.worker_stop env = ⟨self, [], false⟩) ∧
    (self.worker_terminated = false →
      (∃ rest, (self.worker_stop env).steps =
        WorkerStep.set_worker_terminate :: WorkerStep.wait_ms 100 :: rest) ∧
      (WorkerStep.pthread_cancel ∈ (self.worker_stop env).steps ↔
        (env.worker { self with worker_terminate := true }).worker_terminated = false) ∧
      (((env.worker { self with worker_terminate := true }).worker_terminated = true ∨
          env.cancel_status = 0) →
        (self.worker_stop env).steps =
          [WorkerStep.set_worker_terminate, WorkerStep.wait_ms 100] ++
            (if (env.worker { self with worker_terminate := true }).worker_terminated then []
              else [WorkerStep.pthread_cancel]) ++
            [WorkerStep.pthread_join]) ∧
      (((env.worker { self with worker_terminate := true }).worker_terminated = false ∧
          env.cancel_status ≠ 0) →
        (self.worker_stop env).steps =
          [WorkerStep.set_worker_terminate, WorkerStep.wait_ms 100, WorkerStep.pthread_cancel]) ∧
      ((self.worker_stop env).fatal = true ↔
        (((env.worker { self with worker_terminate := true }).worker_terminated = false ∧
            env.cancel_status ≠ 0) ∨ env.join_status ≠ 0)) ∧
      ((self.worker_stop env).fatal = true →
        (self.worker_stop env).device = env.worker { self with worker_terminate := true }) ∧
      ((self.worker_stop env).fatal = false →
        (self.worker_stop env).device =
          device_worker_pthread_cleanup_handler
            (env.worker { self with worker_terminate := true }))) := by
  constructor
  · intro h
    simp [device_c.worker_stop, h]
  · intro h
    obtain ⟨terminate, terminated⟩ := self
    simp only at h
    subst h
    cases hack : (env.worker ⟨true, false⟩).worker_terminated <;>
      by_cases hc : env.cancel_status = 0 <;> by_cases hj : env.join_status = 0 <;>
      simp [device_c.worker_stop, hack, hc, hj]

/-! ## Frame conditions and bounds of Read and Write -/

/-- C24: whatever its outcome, Write leaves every byte of the disk image outside
[LBN*512, LBN*512 + ByteCount) as it was, and Read, whatever its outcome, leaves the whole
disk image, indeed the whole server, as it was. -/
theorem C24_data_movement_frame (k : mscp_server_hpp) (self : mscp_server) (port : uda_c)
    (message : Message) (unitNumber modifiers : Nat) :
    (∀ i, ¬ (loadLE (GetParameterPointer message) 16 4 * 512 ≤ i ∧
          i < loadLE (GetParameterPointer message) 16 4 * 512 +
            loadLE (GetParameterPointer message) 0 4) →
      (self.Write k port message unitNumber modifiers).server._diskBuffer i =
        self._diskBuffer i) ∧
    (self.Read k port message unitNumber modifiers).server._diskBuffer = self._diskBuffer ∧
    (self.Read k port message unitNumber modifiers).server = self := by
  refine ⟨?_, ?_, ?_⟩
  · intro i hi
    unfold mscp_server.Write
    simp only [GetParameterPointer] at hi ⊢
    split_ifs with c1 c2 c3
    · rfl
    · rfl
    · rfl
    · have h3 : loadLE message.Message.Parameters 16 4 * 512 % 2 ^ 32 =
          loadLE message.Message.Parameters 16 4 * 512 := by
        simp only [_diskBufferSize] at c2; omega
      simp only [uda_c.doDMARead, memcpy, h3]
      rw [if_neg hi]
  · unfold mscp_server.Read
    simp only
    split_ifs <;> rfl
  · unfold mscp_server.Read
    simp only
    split_ifs <;> rfl

/-- C28: every Write that passes validation, that is, reaches its DMA read, stays inside the
allocated buffer of imageSize + 512 bytes: LBN*512 + ByteCount <= imageSize + 512; and neither
LBN*512 nor the bound ((imageSize + 512)/512 - LBN)*512 wraps in 32-bit unsigned arithmetic:
the reduced values are the exact ones. -/
theorem C28_write_within_buffer (k : mscp_server_hpp) (self : mscp_server) (port : uda_c)
    (message : Message) (unitNumber modifiers : Nat)
    (hpass : (self.Write k port message unitNumber modifiers).port.dma ≠ port.dma) :
    loadLE (GetParameterPointer message) 16 4 * 512 + loadLE (GetParameterPointer message) 0 4 ≤
      _diskBufferSize + 512 ∧
    loadLE (GetParameterPointer message) 16 4 * 512 < 2 ^ 32 ∧
    loadLE (GetParameterPointer message) 16 4 * 512 % 2 ^ 32 =
      loadLE (GetParameterPointer message) 16 4 * 512 ∧
    loadLE (GetParameterPointer message) 16 4 ≤ (_diskBufferSize + 512) / 512 ∧
    ((_diskBufferSize + 512) / 512 - loadLE (GetParameterPointer message) 16 4) * 512 < 2 ^ 32 ∧
    (((_diskBufferSize + 512) / 512 + 2 ^ 32 - loadLE (GetParameterPointer message) 16 4) % 2 ^ 32
        * 512) % 2 ^ 32 =
      ((_diskBufferSize + 512) / 512 - loadLE (GetParameterPointer message) 16 4) * 512 := by
  have hchecks : ¬ (loadLE message.Message.Parameters 16 4 > (_diskBufferSize + 512) / 512) ∧
      ¬ (loadLE message.Message.Parameters 0 4 >
        (((_diskBufferSize + 512) / 512 + 2 ^ 32 - loadLE message.Message.Parameters 16 4)
          % 2 ^ 32 * 512) % 2 ^ 32) := by
    by_contra hcon
    apply hpass
    unfold mscp_server.Write
    simp only [GetParameterPointer]
    split_ifs with c1 c2 c3
    · rfl
    · rfl
    · rfl
    · exact absurd ⟨c2, c3⟩ hcon
  obtain ⟨h1, h2⟩ := hchecks
  simp only [GetParameterPointer, _diskBufferSize] at h1 h2 ⊢
  omega

/-! ## GetUnitStatus -/

/-- C26: for unit 0, GetUnitStatus returns the status word of SUCCESS exactly when the unit is
online and the status word of UNIT_AVAILABLE exactly when it is not, and it leaves the server
as it was: the online flag, the credits and the disk image are unchanged. SUCCESS and
UNIT_AVAILABLE are constants of the absent header, assumed to be distinct byte-sized codes. -/
theorem C26_get_unit_status (k : mscp_server_hpp) (self : mscp_server) (port : uda_c)
    (message : Message) (modifiers : Nat)
    (hsuccess : k.SUCCESS < 256) (havailable : k.UNIT_AVAILABLE < 256)
    (hcodes : k.SUCCESS ≠ k.UNIT_AVAILABLE) :
    ((self.GetUnitStatus k port message 0 modifiers).status = STATUS k.SUCCESS 0 ↔
      self._unitOnline = true) ∧
    ((self.GetUnitStatus k port message 0 modifiers).status = STATUS k.UNIT_AVAILABLE 0 ↔
      self._unitOnline = false) ∧
    (self.GetUnitStatus k port message 0 modifiers).server._unitOnline = self._unitOnline ∧
    (self.GetUnitStatus k port message 0 modifiers).server._credits = self._credits ∧
    (self.GetUnitStatus k port message 0 modifiers).server._diskBuffer = self._diskBuffer ∧
    (self.GetUnitStatus k port message 0 modifiers).server = self := by
  have hne : STATUS k.SUCCESS 0 ≠ STATUS k.UNIT_AVAILABLE 0 := by
    intro h
    have := congrArg primaryCode h
    rw [primaryCode_STATUS _ _ hsuccess, primaryCode_STATUS _ _ havailable] at this
    exact hcodes this
  cases hon : self._unitOnline
  · simp [mscp_server.GetUnitStatus, hon, hne.symm]
  · simp [mscp_server.GetUnitStatus, hon, hne]

/-! ## Where the code departs from the claims -/

/-- C23 at its failing input: a Write for unit 0 of 512 bytes at LBN 32769, which is no block
of the buffer (32769 * 512 is the size of the buffer). Write answers INVALID_COMMAND with
sub-code 0x0c, the byte count, where Read answers the same request with sub-code 0x1c, the
LBN. -/
theorem C23_write_blames_byte_count_for_lbn_past_end :
    loadLE (GetParameterPointer (transferCommand 34 32769 512)) 16 4 = 32769 ∧
    loadLE (GetParameterPointer (transferCommand 34 32769 512)) 0 4 = 512 ∧
    32769 * 512 = _diskBufferSize + 512 ∧
    primaryCode ((mscp_server.ctor mscpValues).Write mscpValues idlePort
      (transferCommand 34 32769 512) 0 0).status = mscpValues.INVALID_COMMAND ∧
    subCode ((mscp_server.ctor mscpValues).Write mscpValues idlePort
      (transferCommand 34 32769 512) 0 0).status = 0x0c ∧
    primaryCode ((mscp_server.ctor mscpValues).Read mscpValues idlePort
      (transferCommand 34 32769 512) 0 0).status = mscpValues.INVALID_COMMAND ∧
    subCode ((mscp_server.ctor mscpValues).Read mscpValues idlePort
      (transferCommand 34 32769 512) 0 0).status = 0x1c := by
  decide

/-- C25 at its failing input: SetControllerCharacteristics with version 0 and ControllerFlags
0x8081. The response carries the flags 0x0080: with bit 0, bit 15 is gone too, where masking
off bit 0 alone gives 0x8080. -/
theorem C25_response_flags_lose_high_byte :
    loadLE (GetParameterPointer (controllerCommand 0 0x8081 60)) 2 2 = 0 ∧
    loadLE (GetParameterPointer (controllerCommand 0 0x8081 60)) 0 2 = 0x8081 ∧
    ((mscp_server.ctor mscpValues).SetControllerCharacteristics mscpValues idlePort
      (controllerCommand 0 0x8081 60)).status = STATUS mscpValues.SUCCESS 0 ∧
    loadLE (GetParameterPointer ((mscp_server.ctor mscpValues).SetControllerCharacteristics
      mscpValues idlePort (controllerCommand 0 0x8081 60)).message) 0 2 = 0x0080 ∧
    0x8081 &&& 0xfffe = 0x8080 := by
  decide

/-- C27 at its failing input: unit 0, LBN 32769, byte count 0. Read returns INVALID_COMMAND
with sub-code 0x1c and makes no DMA call; Write returns SUCCESS and makes a DMA read. -/
theorem C27_read_and_write_differ_at_lbn_past_end :
    loadLE (GetParameterPointer (transferCommand 34 32769 0)) 16 4 = 32769 ∧
    loadLE (GetParameterPointer (transferCommand 34 32769 0)) 0 4 = 0 ∧
    ((mscp_server.ctor mscpValues).Read mscpValues idlePort
      (transferCommand 34 32769 0) 0 0).status =
      STATUS (mscpValues.INVALID_COMMAND + (0x1c <<< 8)) 0 ∧
    ((mscp_server.ctor mscpValues).Write mscpValues idlePort
      (transferCommand 34 32769 0) 0 0).status = STATUS mscpValues.SUCCESS 0 ∧
    ((mscp_server.ctor mscpValues).Read mscpValues idlePort
      (transferCommand 34 32769 0) 0 0).status ≠
      ((mscp_server.ctor mscpValues).Write mscpValues idlePort
        (transferCommand 34 32769 0) 0 0).status ∧
    ((mscp_server.ctor mscpValues).Read mscpValues idlePort
      (transferCommand 34 32769 0) 0 0).port.dma = [] ∧
    ((mscp_server.ctor mscpValues).Write mscpValues idlePort
      (transferCommand 34 32769 0) 0 0).port.dma = [DMACall.read 0o4000 0] := by
  decide

/-- C29 at its failing input: with a reset pending (polling state InitRestart), InitPolling
writes InitRun over it. The polling thread then goes from InitRun to Run and, the ring being
empty, from Run to Wait, and on neither step signals the waiting Reset. -/
theorem C29_init_polling_overwrites_pending_reset :
    resetPending._pollState = PollingState.InitRestart ∧
    (PollingOp.InitPolling.apply resetPending).server._pollState = PollingState.InitRun ∧
    pollingTrace resetPending
      [PollingOp.InitPolling, PollingOp.PollSleep, PollingOp.PollSleep] =
      [(PollingState.InitRun, true), (PollingState.Run, false), (PollingState.Wait, false)] ∧
    pollingTrace resetPending [PollingOp.PollSleep] = [(PollingState.Wait, true)] := by
  decide

/-- C30 at its failing input: an Online and a SetUnitCharacteristics command for unit 0 with
the same all-zero parameters. The message lengths are 44 and 46; the four bytes at offset 24
hold the unit size 32768 after Online, but after SetUnitCharacteristics the unit size is in
the four bytes at offset 26. -/
theorem C30_set_unit_characteristics_layout_differs :
    ((mscp_server.ctor mscpValues).Online mscpValues idlePort
      (blankCommand 0 9) 0 0).message.MessageLength = 44 ∧
    ((mscp_server.ctor mscpValues).SetUnitCharacteristics mscpValues idlePort
      (blankCommand 0 9) 0 0).message.MessageLength = 46 ∧
    loadLE (GetParameterPointer ((mscp_server.ctor mscpValues).Online mscpValues idlePort
      (blankCommand 0 9) 0 0).message) 24 4 = 32768 ∧
    loadLE (GetParameterPointer ((mscp_server.ctor mscpValues).SetUnitCharacteristics
      mscpValues idlePort (blankCommand 0 9) 0 0).message) 24 4 = 0x80000000 ∧
    loadLE (GetParameterPointer ((mscp_server.ctor mscpValues).SetUnitCharacteristics
      mscpValues idlePort (blankCommand 0 9) 0 0).message) 26 4 = 32768 ∧
    _diskBufferSize / 512 = 32768 := by
  decide

/-! ## The last theorems at concrete inputs -/

/-- C21 at a concrete input: a request at address 102 for the device at address 1, which has
the DMA requests 100 and 101 and the interrupt request 200. -/
theorem C21_request_registration_witness :
    (102 ∉ (twoDevices 1).dma_requests ∧ 102 ∉ (twoDevices 1).intr_requests) ∧
    ((dma_request_c.construct 0 102 (some 1) twoDevices).2 1).dma_requests =
      (twoDevices 1).dma_requests ++ [102] ∧
    (dma_request_c.construct 0 102 (some 1) twoDevices).1.destroy 102
      (dma_request_c.construct 0 102 (some 1) twoDevices).2 = some twoDevices ∧
    ((intr_request_c.construct 102 (some 1) twoDevices).2 1).intr_requests =
      (twoDevices 1).intr_requests ++ [102] ∧
    (intr_request_c.construct 102 (some 1) twoDevices).1.destroy 102
      (intr_request_c.construct 102 (some 1) twoDevices).2 = some twoDevices :=
  ⟨by decide,
    (C21_request_registration 0 102 1 twoDevices (by decide) (by decide)).1.1,
    (C21_request_registration 0 102 1 twoDevices (by decide) (by decide)).1.2,
    (C21_request_registration 0 102 1 twoDevices (by decide) (by decide)).2.1.1,
    (C21_request_registration 0 102 1 twoDevices (by decide) (by decide)).2.1.2⟩

/-- C22 at concrete inputs: a terminated worker; a running worker that ends when it finds
worker_terminate set, so that no cancellation is sent; and a worker that hangs, which is
cancelled and joined. -/
theorem C22_worker_stop_witness :
    ((⟨false, true⟩ : device_c).worker_terminated = true ∧
      (⟨false, false⟩ : device_c).worker_terminated = false ∧
      (cooperativeWorker { (⟨false, false⟩ : device_c) with
        worker_terminate := true }).worker_terminated = true ∧
      (hangingWorker { (⟨false, false⟩ : device_c) with
        worker_terminate := true }).worker_terminated = false) ∧
    (⟨false, true⟩ : device_c).worker_stop ⟨cooperativeWorker, 0, 0⟩ =
      ⟨⟨false, true⟩, [], false⟩ ∧
    ((⟨false, false⟩ : device_c).worker_stop ⟨cooperativeWorker, 0, 0⟩).steps =
      [WorkerStep.set_worker_terminate, WorkerStep.wait_ms 100] ++
        (if (cooperativeWorker { (⟨false, false⟩ : device_c) with
            worker_terminate := true }).worker_terminated then []
          else [WorkerStep.pthread_cancel]) ++
        [WorkerStep.pthread_join] ∧
    (WorkerStep.pthread_cancel ∈
      ((⟨false, false⟩ : device_c).worker_stop ⟨hangingWorker, 0, 0⟩).steps) ∧
    ((⟨false, false⟩ : device_c).worker_stop ⟨hangingWorker, 1, 0⟩).device =
      hangingWorker { (⟨false, false⟩ : device_c) with worker_terminate := true } :=
  ⟨by decide,
    (C22_worker_stop ⟨false, true⟩ ⟨cooperativeWorker, 0, 0⟩).1 (by decide),
    ((C22_worker_stop ⟨false, false⟩ ⟨cooperativeWorker, 0, 0⟩).2 (by decide)).2.2.1
      (Or.inl (by decide)),
    ((C22_worker_stop ⟨false, false⟩ ⟨hangingWorker, 0, 0⟩).2 (by decide)).2.1.mpr (by decide),
    ((C22_worker_stop ⟨false, false⟩ ⟨hangingWorker, 1, 0⟩).2 (by decide)).2.2.2.2.2.1
      ((((C22_worker_stop ⟨false, false⟩ ⟨hangingWorker, 1, 0⟩).2
        (by decide)).2.2.2.2.1).mpr (Or.inl ⟨by decide, by decide⟩))⟩

/-- C24 at a concrete input: a Write of 512 bytes at LBN 10 leaves byte 0 of the image as it
was. -/
theorem C24_data_movement_frame_witness :
    ¬ (loadLE (GetParameterPointer (transferCommand 34 10 512)) 16 4 * 512 ≤ 0 ∧
      0 < loadLE (GetParameterPointer (transferCommand 34 10 512)) 16 4 * 512 +
        loadLE (GetParameterPointer (transferCommand 34 10 512)) 0 4) ∧
    ((mscp_server.ctor mscpValues).Write mscpValues idlePort (transferCommand 34 10 512) 0
      0).server._diskBuffer 0 = (mscp_server.ctor mscpValues)._diskBuffer 0 :=
  ⟨by decide,
    (C24_data_movement_frame mscpValues (mscp_server.ctor mscpValues) idlePort
      (transferCommand 34 10 512) 0 0).1 0 (by decide)⟩

/-- C26 at a concrete input: GetUnitStatus on a freshly constructed server, whose unit is not
online. -/
theorem C26_get_unit_status_witness :
    (mscpValues.SUCCESS < 256 ∧ mscpValues.UNIT_AVAILABLE < 256 ∧
      mscpValues.SUCCESS ≠ mscpValues.UNIT_AVAILABLE) ∧
    (((mscp_server.ctor mscpValues).GetUnitStatus mscpValues idlePort (blankCommand 0 3) 0
        0).status = STATUS mscpValues.SUCCESS 0 ↔
      (mscp_server.ctor mscpValues)._unitOnline = true) ∧
    (((mscp_server.ctor mscpValues).GetUnitStatus mscpValues idlePort (blankCommand 0 3) 0
        0).status = STATUS mscpValues.UNIT_AVAILABLE 0 ↔
      (mscp_server.ctor mscpValues)._unitOnline = false) ∧
    ((mscp_server.ctor mscpValues).GetUnitStatus mscpValues idlePort (blankCommand 0 3) 0
      0).server._unitOnline = (mscp_server.ctor mscpValues)._unitOnline ∧
    ((mscp_server.ctor mscpValues).GetUnitStatus mscpValues idlePort (blankCommand 0 3) 0
      0).server._credits = (mscp_server.ctor mscpValues)._credits ∧
    ((mscp_server.ctor mscpValues).GetUnitStatus mscpValues idlePort (blankCommand 0 3) 0
      0).server._diskBuffer = (mscp_server.ctor mscpValues)._diskBuffer ∧
    ((mscp_server.ctor mscpValues).GetUnitStatus mscpValues idlePort (blankCommand 0 3) 0
      0).server = mscp_server.ctor mscpValues :=
  ⟨by decide,
    C26_get_unit_status mscpValues (mscp_server.ctor mscpValues) idlePort (blankCommand 0 3) 0
      (by decide) (by decide) (by decide)⟩

/-- C28 at a concrete input: a Write of 512 bytes at the last block, LBN 32768. -/
theorem C28_write_within_buffer_witness :
    ((mscp_server.ctor mscpValues).Write mscpValues idlePort (transferCommand 34 32768 512) 0
      0).port.dma ≠ idlePort.dma ∧
    loadLE (GetParameterPointer (transferCommand 34 32768 512)) 16 4 * 512 +
        loadLE (GetParameterPointer (transferCommand 34 32768 512)) 0 4 ≤
      _diskBufferSize + 512 ∧
    loadLE (GetParameterPointer (transferCommand 34 32768 512)) 16 4 * 512 < 2 ^ 32 ∧
    loadLE (GetParameterPointer (transferCommand 34 32768 512)) 16 4 * 512 % 2 ^ 32 =
      loadLE (GetParameterPointer (transferCommand 34 32768 512)) 16 4 * 512 ∧
    loadLE (GetParameterPointer (transferCommand 34 32768 512)) 16 4 ≤
      (_diskBufferSize + 512) / 512 ∧
    ((_diskBufferSize + 512) / 512 -
      loadLE (GetParameterPointer (transferCommand 34 32768 512)) 16 4) * 512 < 2 ^ 32 ∧
    (((_diskBufferSize + 512) / 512 + 2 ^ 32 -
        loadLE (GetParameterPointer (transferCommand 34 32768 512)) 16 4) % 2 ^ 32 * 512)
        % 2 ^ 32 =
      ((_diskBufferSize + 512) / 512 -
        loadLE (GetParameterPointer (transferCommand 34 32768 512)) 16 4) * 512 :=
  ⟨by decide,
    C28_write_within_buffer mscpValues (mscp_server.ctor mscpValues) idlePort
      (transferCommand 34 32768 512) 0 0 (by decide)⟩

end UniBone
